import Mathlib

/-!
# ModernMediaPlayer: playback-state coordination

A shallow embedding of `src/media_player.cpp`.  The window class `MediaPlayer`
becomes a record of the toolkit objects it owns; every slot becomes a pure
function on that record.  Signals are delivered synchronously, exactly as the
direct connections made in `setupConnections` deliver them: a widget setter
returns the new widget together with the value it emits (if any), and the
window-level wrapper runs the connected slot.

The toolkit objects (`QListWidget`, `QSlider`, `QToolButton`, `QComboBox`,
`QAction`, `QTime`, `QSettings`, `QMediaPlayer`, `QAudioOutput`) are external
collaborators; they are modelled by their documented behaviour.  Floating
point values handed to the engine (`volume / 100.0`, the parsed playback
rate) are represented by exact rationals.
-/

namespace ModernMediaPlayer

/-! ## Toolkit objects -/

/-- A media location as produced by `QUrl::fromUserInput`; the reference
string the user supplied is kept as is. -/
structure QUrl where
  userInput : String
  deriving DecidableEq, Repr

/-- Wrapper for `QUrl::fromUserInput(filePath)`. -/
def QUrl.fromUserInput (filePath : String) : QUrl := ⟨filePath⟩

/-- File name part of a path (`QFileInfo::fileName`): everything after the
last slash. -/
def fileName (filePath : String) : String :=
  String.mk ((filePath.toList.reverse.takeWhile (fun c => c != '/')).reverse)

/-- The playback states of `QMediaPlayer`. -/
inductive PlaybackState where
  | StoppedState
  | PlayingState
  | PausedState
  deriving DecidableEq, Repr

/-- The media statuses of `QMediaPlayer`. -/
inductive MediaStatus where
  | NoMedia
  | LoadingMedia
  | LoadedMedia
  | StalledMedia
  | BufferingMedia
  | BufferedMedia
  | EndOfMedia
  | InvalidMedia
  deriving DecidableEq, Repr

/-- Requests received by the playback engine, in the order of arrival. -/
inductive PlayerCall where
  | setSource (url : QUrl)
  | play
  | pause
  | stop
  | setPosition (ms : Int)
  | setPlaybackRate (rate : ℚ)
  deriving DecidableEq, Repr

/-- The playback engine (`QMediaPlayer`).  Its playback state follows the state
machine of the specification (section 4.2): `play` leads to Playing from
Stopped and Paused, `pause` leads from Playing to Paused, `stop` leads to
Stopped; a request that the machine does not list leaves the state alone.
`calls` records every request made by the window. -/
structure QMediaPlayer where
  source : Option QUrl
  playbackState : PlaybackState
  position : Int
  duration : Int
  playbackRate : ℚ
  calls : List PlayerCall
  deriving DecidableEq, Repr

namespace QMediaPlayer

/-- A newly constructed engine: no source, stopped, rate 1. -/
def new : QMediaPlayer :=
  { source := none, playbackState := .StoppedState, position := 0, duration := 0,
    playbackRate := 1, calls := [] }

/-- Request `setSource(url)`. -/
def setSource (url : QUrl) (p : QMediaPlayer) : QMediaPlayer :=
  { p with source := some url, calls := p.calls ++ [.setSource url] }

/-- Request `play()`. -/
def play (p : QMediaPlayer) : QMediaPlayer :=
  { p with playbackState := .PlayingState, calls := p.calls ++ [.play] }

/-- Request `pause()`. -/
def pause (p : QMediaPlayer) : QMediaPlayer :=
  { p with
    playbackState :=
      match p.playbackState with
      | .PlayingState => .PausedState
      | st => st,
    calls := p.calls ++ [.pause] }

/-- Request `stop()`. -/
def stop (p : QMediaPlayer) : QMediaPlayer :=
  { p with playbackState := .StoppedState, calls := p.calls ++ [.stop] }

/-- Request `setPosition(ms)`; the engine is trusted with the seek itself. -/
def setPosition (ms : Int) (p : QMediaPlayer) : QMediaPlayer :=
  { p with calls := p.calls ++ [.setPosition ms] }

/-- Request `setPlaybackRate(rate)`. -/
def setPlaybackRate (rate : ℚ) (p : QMediaPlayer) : QMediaPlayer :=
  { p with playbackRate := rate, calls := p.calls ++ [.setPlaybackRate rate] }

end QMediaPlayer

/-- Requests received by the audio output, in the order of arrival. -/
inductive AudioCall where
  | setVolume (volume : ℚ)
  | setMuted (muted : Bool)
  deriving DecidableEq, Repr

/-- The audio output (`QAudioOutput`): a linear volume and the explicit mute
flag. -/
structure QAudioOutput where
  volume : ℚ
  muted : Bool
  calls : List AudioCall
  deriving DecidableEq, Repr

namespace QAudioOutput

/-- A newly constructed audio output: full volume, not muted. -/
def new : QAudioOutput := { volume := 1, muted := false, calls := [] }

/-- Setter `QAudioOutput::setVolume`: the value is bounded to the range from 0
to 1 (`qBound(0., volume, 1.)`) before it is stored. -/
def setVolume (volume : ℚ) (a : QAudioOutput) : QAudioOutput :=
  { a with volume := max 0 (min volume 1), calls := a.calls ++ [.setVolume volume] }

/-- Setter `QAudioOutput::setMuted`. -/
def setMuted (muted : Bool) (a : QAudioOutput) : QAudioOutput :=
  { a with muted := muted, calls := a.calls ++ [.setMuted muted] }

end QAudioOutput

/-- One row of the playlist view: the displayed text and the media reference
stored under `Qt::UserRole`. -/
structure QListWidgetItem where
  text : String
  userData : String
  deriving DecidableEq, Repr

/-- The playlist view (`QListWidget`): its rows and the current row, which is
`-1` when no row is current. -/
structure QListWidget where
  items : List QListWidgetItem
  currentRow : Int
  deriving DecidableEq, Repr

namespace QListWidget

/-- Number of rows, as the C++ `int` returned by `count()`. -/
def count (w : QListWidget) : Int := w.items.length

/-- Appending a row leaves the current row alone. -/
def addItem (item : QListWidgetItem) (w : QListWidget) : QListWidget :=
  { w with items := w.items ++ [item] }

/-- Setter `setCurrentRow(row)`: a row outside the list yields an invalid
model index, which leaves the view without current row. -/
def setCurrentRow (row : Int) (w : QListWidget) : QListWidget :=
  { w with currentRow := if 0 ≤ row ∧ row < w.count then row else -1 }

/-- The row `item(row)`, if there is one. -/
def item (row : Int) (w : QListWidget) : Option QListWidgetItem :=
  if 0 ≤ row then w.items.get? row.toNat else none

/-- The current item, `none` standing for the null pointer. -/
def currentItem (w : QListWidget) : Option QListWidgetItem :=
  w.item w.currentRow

end QListWidget

/-- A horizontal slider (`QSlider`) with its range and value. -/
structure QSlider where
  minimum : Int
  maximum : Int
  value : Int
  deriving DecidableEq, Repr

namespace QSlider

/-- Setter `setValue(v)`: the value is bounded to the range; `valueChanged` is
emitted (second component) only when the stored value changes. -/
def setValue (v : Int) (w : QSlider) : QSlider × Option Int :=
  let c := max w.minimum (min v w.maximum)
  if c = w.value then (w, none) else ({ w with value := c }, some c)

/-- Setter `setRange(min, max)`: the maximum is at least the minimum and the
value is bounded again. -/
def setRange (lo hi : Int) (w : QSlider) : QSlider × Option Int :=
  setValue w.value { w with minimum := lo, maximum := max lo hi }

end QSlider

/-- The two icons the volume button and the play button switch between. -/
inductive Icon where
  | SP_MediaPlay
  | SP_MediaPause
  | SP_MediaVolume
  | SP_MediaVolumeMuted
  deriving DecidableEq, Repr

/-- A checkable tool button (the volume button is made checkable when the
window is built and stays so). -/
structure QToolButton where
  icon : Icon
  checked : Bool
  deriving DecidableEq, Repr

namespace QToolButton

/-- Setter `setIcon`. -/
def setIcon (icon : Icon) (b : QToolButton) : QToolButton := { b with icon := icon }

/-- Setter `setChecked(c)` of a checkable button: nothing happens when the
state is already `c`; otherwise the state changes and `toggled(c)` is emitted
(second component). -/
def setChecked (c : Bool) (b : QToolButton) : QToolButton × Option Bool :=
  if b.checked = c then (b, none) else ({ b with checked := c }, some c)

end QToolButton

/-- A checkable menu action (`QAction`). -/
structure QAction where
  text : String
  checked : Bool
  deriving DecidableEq, Repr

/-- Setter `QAction::setChecked(c)` of a checkable action; `toggled(c)` is
emitted (second component) only when the state changes. -/
def QAction.setChecked (c : Bool) (a : QAction) : QAction × Option Bool :=
  if a.checked = c then (a, none) else ({ a with checked := c }, some c)

/-- A dock panel; `visible` is what `setVisible` / `hide` last asked for. -/
structure QDockWidget where
  visible : Bool
  deriving DecidableEq, Repr

/-- The playback-rate selector (`QComboBox`): its entries and the current
index, `-1` when there is none. -/
structure QComboBox where
  items : List String
  currentIndex : Int
  deriving DecidableEq, Repr

namespace QComboBox

/-- Text of entry `i`, empty when `i` is not an entry. -/
def itemText (i : Int) (w : QComboBox) : String :=
  if 0 ≤ i then (w.items.get? i.toNat).getD "" else ""

/-- Text of the current entry. -/
def currentText (w : QComboBox) : String := w.itemText w.currentIndex

/-- Setter `setCurrentIndex(i)`: an index outside the entries is an invalid
model index, i.e. `-1`.  `currentTextChanged` is emitted (second component)
when the index changes and the text with it. -/
def setCurrentIndex (i : Int) (w : QComboBox) : QComboBox × Option String :=
  let idx : Int := if 0 ≤ i ∧ i < w.items.length then i else -1
  if idx = w.currentIndex then (w, none)
  else
    let w1 := { w with currentIndex := idx }
    (w1, if w1.currentText = w.currentText then none else some w1.currentText)

end QComboBox

/-- Two-digit rendering of a clock field (format codes hh, mm, ss): a leading
zero below ten. -/
def pad2 (n : Nat) : String := if n < 10 then "0" ++ Nat.repr n else Nat.repr n

/-- Milliseconds in a day, an hour, a minute, a second (constants of `QTime`). -/
def MSECS_PER_DAY : Int := 86400000

/-- Milliseconds in an hour. -/
def MSECS_PER_HOUR : Int := 3600000

/-- Milliseconds in a minute. -/
def MSECS_PER_MIN : Int := 60000

/-- A clock time (`QTime`), stored as milliseconds since midnight. -/
structure QTime where
  mds : Int
  deriving DecidableEq, Repr

namespace QTime

/-- Constructor `QTime(h, m, s)`. -/
def ofHMS (h m s : Int) : QTime := ⟨(h * 3600 + m * 60 + s) * 1000⟩

/-- Method `addMSecs(ms)`: the sum wraps around within the day (a modulus
that rounds down, so the result is never negative). -/
def addMSecs (ms : Int) (t : QTime) : QTime := ⟨(t.mds + ms) % MSECS_PER_DAY⟩

/-- Accessor `hour()`. -/
def hour (t : QTime) : Int := t.mds / MSECS_PER_HOUR

/-- Accessor `minute()`. -/
def minute (t : QTime) : Int := (t.mds % MSECS_PER_HOUR) / MSECS_PER_MIN

/-- Accessor `second()`. -/
def second (t : QTime) : Int := (t.mds / 1000) % 60

/-- Rendering `toString("hh:mm:ss")`. -/
def toString (t : QTime) : String :=
  pad2 t.hour.toNat ++ ":" ++ pad2 t.minute.toNat ++ ":" ++ pad2 t.second.toNat

end QTime

/-- Conversion `static_cast<int>` of a 64-bit value: the low 32 bits, read as
a signed number. -/
def toInt32 (x : Int) : Int := (x + 2 ^ 31) % 2 ^ 32 - 2 ^ 31

/-- A stored settings value (`QVariant`), restricted to the kinds this
program stores. -/
inductive QVariant where
  | invalid
  | int (n : Int)
  | bool (b : Bool)
  | stringList (l : List String)
  deriving DecidableEq, Repr

namespace QVariant

/-- Conversion `toInt()`; a value that cannot be converted gives 0. -/
def toInt : QVariant → Int
  | .int n => n
  | .bool b => if b then 1 else 0
  | _ => 0

/-- Conversion `toBool()`. -/
def toBool : QVariant → Bool
  | .bool b => b
  | .int n => n != 0
  | _ => false

/-- Conversion `toStringList()`; a value that cannot be converted gives the
empty list. -/
def toStringList : QVariant → List String
  | .stringList l => l
  | _ => []

end QVariant

/-- The persistent key-value backend (`QSettings`).  The window geometry and
dock layout blobs (`geometry`, `windowState`) belong to the toolkit and are
left out of the model. -/
structure QSettings where
  entries : List (String × QVariant)
  deriving DecidableEq, Repr

namespace QSettings

/-- Lookup `value(key, defaultValue)`: the stored value, or the default when
the key is absent. -/
def value (key : String) (defaultValue : QVariant) (s : QSettings) : QVariant :=
  (s.entries.lookup key).getD defaultValue

/-- Whether the key is stored. -/
def contains (key : String) (s : QSettings) : Bool := (s.entries.lookup key).isSome

/-- Store `setValue(key, v)`, replacing what was stored under the key. -/
def setValue (key : String) (v : QVariant) (s : QSettings) : QSettings :=
  ⟨(key, v) :: s.entries.filter (fun e => e.1 != key)⟩

end QSettings

/-- Position of the first occurrence of a character (`QString::indexOf`),
`-1` when it does not occur. -/
def indexOf (c : Char) (s : String) : Int :=
  let n := (s.toList.takeWhile (fun d => d != c)).length
  if n < s.toList.length then n else -1

/-- The leftmost `n` characters (`QString::left`); the whole string when `n` is
negative or not smaller than the length. -/
def left (n : Int) (s : String) : String :=
  if n < 0 ∨ (s.toList.length : Int) ≤ n then s else String.mk (s.toList.take n.toNat)

/-- Value of a run of decimal digits. -/
def digitsValue (ds : List Char) : Nat :=
  ds.foldl (fun acc d => acc * 10 + (d.toNat - 48)) 0

/-- Conversion `QString::toDouble` on unsigned decimal notation (digits with
an optional fractional part), which is the notation of the rate labels; the
result is the exact decimal value, and 0 when the text is not such a number
(the conversion fails). -/
def toDouble (s : String) : ℚ :=
  let ip := s.toList.takeWhile Char.isDigit
  match s.toList.dropWhile Char.isDigit with
  | [] => if ip = [] then 0 else (digitsValue ip : ℚ)
  | c :: fp =>
    if c = '.' ∧ fp.all Char.isDigit ∧ (ip ≠ [] ∨ fp ≠ []) then
      (digitsValue ip : ℚ) + (digitsValue fp : ℚ) / (10 : ℚ) ^ fp.length
    else 0

/-! ## The main window -/

/-- The window `MediaPlayer` with the objects it owns. -/
structure MediaPlayer where
  m_player : QMediaPlayer
  m_audioOutput : QAudioOutput
  m_timeSlider : QSlider
  m_volumeSlider : QSlider
  m_timeLabel : String
  m_playButton : QToolButton
  m_volumeButton : QToolButton
  m_playbackRateBox : QComboBox
  m_statusBar : String
  m_playlistWidget : QListWidget
  m_playlistDock : QDockWidget
  m_equalizerDock : QDockWidget
  m_playAction : QAction
  m_playlistAction : QAction
  m_equalizerAction : QAction
  fullScreen : Bool
  menuBarVisible : Bool
  statusBarVisible : Bool
  warnings : List (Int × String)
  deriving DecidableEq, Repr

namespace MediaPlayer

/-- The entries of the playback-rate selector. -/
def rateLabels : List String := ["0.5x", "0.75x", "1.0x", "1.25x", "1.5x", "2.0x"]

/-- Function `setupUi`: the widgets as they are created. -/
def setupUi : MediaPlayer :=
  { m_player := QMediaPlayer.new
    m_audioOutput := QAudioOutput.new
    m_timeSlider := { minimum := 0, maximum := 100, value := 0 }
    m_volumeSlider := { minimum := 0, maximum := 100, value := 50 }
    m_timeLabel := "00:00:00 / 00:00:00"
    m_playButton := { icon := .SP_MediaPlay, checked := false }
    m_volumeButton := { icon := .SP_MediaVolume, checked := false }
    m_playbackRateBox := { items := rateLabels, currentIndex := 2 }
    m_statusBar := ""
    m_playlistWidget := { items := [], currentRow := -1 }
    m_playlistDock := { visible := true }
    m_equalizerDock := { visible := false }
    m_playAction := { text := "&Play/Pause", checked := false }
    m_playlistAction := { text := "&Playlist", checked := true }
    m_equalizerAction := { text := "&Equalizer", checked := false }
    fullScreen := false
    menuBarVisible := true
    statusBarVisible := true
    warnings := [] }

/-- Function `setupPlayer`: the engine objects, with the initial volume taken
from the volume slider. -/
def setupPlayer (w : MediaPlayer) : MediaPlayer :=
  { w with
    m_player := QMediaPlayer.new
    m_audioOutput := QAudioOutput.new.setVolume (w.m_volumeSlider.value / 100) }

/-- Slot `updatePlayButton`, connected to `playbackStateChanged`. -/
def updatePlayButton (w : MediaPlayer) : MediaPlayer :=
  if w.m_player.playbackState = .PlayingState then
    { w with
      m_playButton := w.m_playButton.setIcon .SP_MediaPause
      m_playAction := { w.m_playAction with text := "&Pause" } }
  else
    { w with
      m_playButton := w.m_playButton.setIcon .SP_MediaPlay
      m_playAction := { w.m_playAction with text := "&Play" } }

/-- Delivery of `playbackStateChanged` after an engine request: the slot runs
when the state differs from the one before the request. -/
def playbackStateChanged ( before : PlaybackState) (w : MediaPlayer) : MediaPlayer :=
  if w.m_player.playbackState = before then w else updatePlayButton w

/-- The window asks the engine to play. -/
def playerPlay (w : MediaPlayer) : MediaPlayer :=
  playbackStateChanged w.m_player.playbackState { w with m_player := w.m_player.play }

/-- The window asks the engine to pause. -/
def playerPause (w : MediaPlayer) : MediaPlayer :=
  playbackStateChanged w.m_player.playbackState { w with m_player := w.m_player.pause }

/-- The window asks the engine to stop (stop button, stop action). -/
def playerStop (w : MediaPlayer) : MediaPlayer :=
  playbackStateChanged w.m_player.playbackState { w with m_player := w.m_player.stop }

/-- Slot `addToPlaylist`. -/
def addToPlaylist (filePath : String) (w : MediaPlayer) : MediaPlayer :=
  { w with
    m_playlistWidget :=
      w.m_playlistWidget.addItem { text := fileName filePath, userData := filePath } }

/-- Slot `playFile`. -/
def playFile (filePath : String) (w : MediaPlayer) : MediaPlayer :=
  let w1 := { w with m_player := w.m_player.setSource (QUrl.fromUserInput filePath) }
  let w2 := playerPlay w1
  { w2 with m_statusBar := "Now playing: " ++ fileName filePath }

/-- Slot `playSelectedItem`; `none` is the null item, whose use is an error. -/
def playSelectedItem (item : Option QListWidgetItem) (w : MediaPlayer) : Option MediaPlayer :=
  match item with
  | some it => some (playFile it.userData w)
  | none => none

/-- Slot `togglePlayPause`. -/
def togglePlayPause (w : MediaPlayer) : MediaPlayer :=
  if w.m_player.playbackState = .PlayingState then playerPause w else playerPlay w

/-- Slot `updatePosition`, connected to `positionChanged`. -/
def updatePosition (position : Int) (w : MediaPlayer) : MediaPlayer :=
  let ts := (w.m_timeSlider.setValue (toInt32 position)).1
  let currentTime := (QTime.ofHMS 0 0 0).addMSecs (toInt32 position)
  let totalTime := (QTime.ofHMS 0 0 0).addMSecs (toInt32 w.m_player.duration)
  { w with
    m_timeSlider := ts
    m_timeLabel := currentTime.toString ++ " / " ++ totalTime.toString }

/-- Slot `updateDuration`, connected to `durationChanged`. -/
def updateDuration (duration : Int) (w : MediaPlayer) : MediaPlayer :=
  { w with m_timeSlider := (w.m_timeSlider.setRange 0 (toInt32 duration)).1 }

/-- Slot `seek`. -/
def seek (position : Int) (w : MediaPlayer) : MediaPlayer :=
  { w with m_player := w.m_player.setPosition position }

/-- Slot `toggleMute`, connected to the volume button's `toggled`. -/
def toggleMute (muted : Bool) (w : MediaPlayer) : MediaPlayer :=
  { w with
    m_audioOutput := w.m_audioOutput.setMuted muted
    m_volumeButton :=
      w.m_volumeButton.setIcon (if muted then .SP_MediaVolumeMuted else .SP_MediaVolume) }

/-- Call `m_volumeButton->setChecked(c)` with the delivery of `toggled`. -/
def volumeButtonSetChecked (c : Bool) (w : MediaPlayer) : MediaPlayer :=
  let r := w.m_volumeButton.setChecked c
  let w1 := { w with m_volumeButton := r.1 }
  match r.2 with
  | some muted => toggleMute muted w1
  | none => w1

/-- Slot `setVolume`, connected to the volume slider's `valueChanged`. -/
def setVolume (volume : Int) (w : MediaPlayer) : MediaPlayer :=
  let w1 := { w with m_audioOutput := w.m_audioOutput.setVolume ((volume : ℚ) / 100) }
  if volume = 0 then
    volumeButtonSetChecked true
      { w1 with m_volumeButton := w1.m_volumeButton.setIcon .SP_MediaVolumeMuted }
  else
    volumeButtonSetChecked false
      { w1 with m_volumeButton := w1.m_volumeButton.setIcon .SP_MediaVolume }

/-- Call `m_volumeSlider->setValue(v)` with the delivery of `valueChanged`. -/
def volumeSliderSetValue (v : Int) (w : MediaPlayer) : MediaPlayer :=
  let r := w.m_volumeSlider.setValue v
  let w1 := { w with m_volumeSlider := r.1 }
  match r.2 with
  | some value => setVolume value w1
  | none => w1

/-- Slot `toggleFullscreen`. -/
def toggleFullscreen (w : MediaPlayer) : MediaPlayer :=
  if w.fullScreen then
    { w with fullScreen := false, menuBarVisible := true, statusBarVisible := true }
  else
    { w with fullScreen := true, menuBarVisible := false, statusBarVisible := false }

/-- Slot `setPlaybackRate`, connected to the rate selector's
`currentTextChanged`. -/
def setPlaybackRate (rate : String) (w : MediaPlayer) : MediaPlayer :=
  let speed := toDouble (left (indexOf 'x' rate) rate)
  { w with m_player := w.m_player.setPlaybackRate speed }

/-- Call `m_playbackRateBox->setCurrentIndex(i)` with the delivery of
`currentTextChanged`. -/
def rateBoxSetCurrentIndex (i : Int) (w : MediaPlayer) : MediaPlayer :=
  let r := w.m_playbackRateBox.setCurrentIndex i
  let w1 := { w with m_playbackRateBox := r.1 }
  match r.2 with
  | some text => setPlaybackRate text w1
  | none => w1

/-- Call `m_playlistAction->setChecked(c)`; `toggled` shows or hides the
playlist dock. -/
def playlistActionSetChecked (c : Bool) (w : MediaPlayer) : MediaPlayer :=
  let r := w.m_playlistAction.setChecked c
  let w1 := { w with m_playlistAction := r.1 }
  match r.2 with
  | some v => { w1 with m_playlistDock := { visible := v } }
  | none => w1

/-- Call `m_equalizerAction->setChecked(c)`; `toggled` shows or hides the
equalizer dock. -/
def equalizerActionSetChecked (c : Bool) (w : MediaPlayer) : MediaPlayer :=
  let r := w.m_equalizerAction.setChecked c
  let w1 := { w with m_equalizerAction := r.1 }
  match r.2 with
  | some v => { w1 with m_equalizerDock := { visible := v } }
  | none => w1

/-- Slot `previousTrack`. -/
def previousTrack (w : MediaPlayer) : Option MediaPlayer :=
  let currentRow := w.m_playlistWidget.currentRow
  if currentRow > 0 then
    let w1 := { w with m_playlistWidget := w.m_playlistWidget.setCurrentRow (currentRow - 1) }
    playSelectedItem w1.m_playlistWidget.currentItem w1
  else some w

/-- Slot `nextTrack`. -/
def nextTrack (w : MediaPlayer) : Option MediaPlayer :=
  let currentRow := w.m_playlistWidget.currentRow
  if currentRow < w.m_playlistWidget.count - 1 then
    let w1 := { w with m_playlistWidget := w.m_playlistWidget.setCurrentRow (currentRow + 1) }
    playSelectedItem w1.m_playlistWidget.currentItem w1
  else some w

/-- Slot `handleMediaStatus`, connected to `mediaStatusChanged`. -/
def handleMediaStatus (status : MediaStatus) (w : MediaPlayer) : Option MediaPlayer :=
  match status with
  | .EndOfMedia => nextTrack w
  | .LoadedMedia => some w
  | .BufferingMedia => some w
  | _ => some w

/-- Slot `handlePlayerError`: a warning box with the error code and text. -/
def handlePlayerError (error : Int) (errorString : String) (w : MediaPlayer) : MediaPlayer :=
  { w with warnings := w.warnings ++ [(error, errorString)] }

/-- Slot `openFile`, given the files returned by the file chooser. -/
def openFile (files : List String) (w : MediaPlayer) : MediaPlayer :=
  match files with
  | [] => w
  | first :: _ => playFile first (files.foldl (fun acc file => addToPlaylist file acc) w)

/-- Slot `openUrl`, given the answer of the input dialog. -/
def openUrl (ok : Bool) (url : String) (w : MediaPlayer) : MediaPlayer :=
  if ok ∧ url ≠ "" then playFile url (addToPlaylist url w) else w

/-- Function `loadSettings`. -/
def loadSettings (settings : QSettings) (w : MediaPlayer) : MediaPlayer :=
  let w1 := volumeSliderSetValue (settings.value "volume" (.int 50)).toInt w
  let w2 := rateBoxSetCurrentIndex (settings.value "playbackRate" (.int 2)).toInt w1
  let recentFiles := (settings.value "recentFiles" .invalid).toStringList
  let w3 := recentFiles.foldl (fun acc file => addToPlaylist file acc) w2
  let w4 := playlistActionSetChecked (settings.value "showPlaylist" (.bool true)).toBool w3
  equalizerActionSetChecked (settings.value "showEqualizer" (.bool false)).toBool w4

/-- The media references of the playlist rows, as collected by the loop of
`saveSettings`. -/
def recentFiles (w : MediaPlayer) : List String :=
  w.m_playlistWidget.items.map (fun it => it.userData)

/-- Function `saveSettings`. -/
def saveSettings (w : MediaPlayer) (settings : QSettings) : QSettings :=
  let s1 := settings.setValue "volume" (.int w.m_volumeSlider.value)
  let s2 := s1.setValue "playbackRate" (.int w.m_playbackRateBox.currentIndex)
  let s3 := s2.setValue "recentFiles" (.stringList w.recentFiles)
  let s4 := s3.setValue "showPlaylist" (.bool w.m_playlistAction.checked)
  s4.setValue "showEqualizer" (.bool w.m_equalizerAction.checked)

/-- The constructor: `setupUi`, `setupPlayer`, `setupConnections` (the
connections are built into the wrappers above), before `loadSettings`. -/
def freshWindow : MediaPlayer := setupPlayer setupUi

/-- The constructor, complete. -/
def construct (settings : QSettings) : MediaPlayer := loadSettings settings freshWindow

end MediaPlayer

/-! ## Runs of the program -/

/-- The slots that touch the playlist cursor, as calls with their arguments. -/
inductive PlaylistCall where
  | addToPlaylist (filePath : String)
  | playFile (filePath : String)
  | nextTrack
  | previousTrack
  | handleMediaStatus (status : MediaStatus)
  deriving DecidableEq, Repr

/-- One playlist call. -/
def PlaylistCall.apply (c : PlaylistCall) (w : MediaPlayer) : Option MediaPlayer :=
  match c with
  | .addToPlaylist filePath => some (w.addToPlaylist filePath)
  | .playFile filePath => some (w.playFile filePath)
  | .nextTrack => w.nextTrack
  | .previousTrack => w.previousTrack
  | .handleMediaStatus status => w.handleMediaStatus status

/-- A sequence of playlist calls, first call first; `none` when a call fails. -/
def applyCalls (cs : List PlaylistCall) (w : MediaPlayer) : Option MediaPlayer :=
  match cs with
  | [] => some w
  | c :: rest => (c.apply w).bind (applyCalls rest)

/-- What can happen to the window once it is constructed: user gestures, with
the values the toolkit dialogs and widgets hand over, and engine signals. -/
inductive Event where
  | commandLineArgument (filePath : String)
  | openFile (files : List String)
  | openUrl (ok : Bool) (url : String)
  | rowSelected (row : Int)
  | itemDoubleClicked (row : Nat)
  | playClicked
  | stopClicked
  | previousClicked
  | nextClicked
  | sliderMoved (position : Int)
  | volumeSliderMoved (value : Int)
  | volumeUp
  | volumeDown
  | volumeButtonToggle
  | fullscreenClicked
  | escapePressed
  | rateChosen (index : Int)
  | playlistActionTriggered
  | equalizerActionTriggered
  | seekBackward
  | seekForward
  | positionChanged (position : Int)
  | durationChanged (duration : Int)
  | playbackStateChanged (state : PlaybackState)
  | mediaStatusChanged (status : MediaStatus)
  | errorOccurred (error : Int) (errorString : String)
  deriving DecidableEq, Repr

/-- The effect of one event, following the connections of `setupConnections`,
`createMenuBar`, `setupShortcuts` and the start-up code of `main`. -/
def Event.apply (e : Event) (w : MediaPlayer) : Option MediaPlayer :=
  match e with
  | .commandLineArgument filePath => some ((w.addToPlaylist filePath).playFile filePath)
  | .openFile files => some (w.openFile files)
  | .openUrl ok url => some (w.openUrl ok url)
  | .rowSelected row =>
    some { w with m_playlistWidget := w.m_playlistWidget.setCurrentRow row }
  | .itemDoubleClicked row =>
    match w.m_playlistWidget.items.get? row with
    | some it =>
      MediaPlayer.playSelectedItem (some it)
        { w with m_playlistWidget := w.m_playlistWidget.setCurrentRow row }
    | none => some w
  | .playClicked => some w.togglePlayPause
  | .stopClicked => some w.playerStop
  | .previousClicked => w.previousTrack
  | .nextClicked => w.nextTrack
  | .sliderMoved position =>
    let ts := (w.m_timeSlider.setValue position).1
    some (MediaPlayer.seek ts.value { w with m_timeSlider := ts })
  | .volumeSliderMoved value => some (w.volumeSliderSetValue value)
  | .volumeUp => some (w.volumeSliderSetValue (w.m_volumeSlider.value + 5))
  | .volumeDown => some (w.volumeSliderSetValue (w.m_volumeSlider.value - 5))
  | .volumeButtonToggle => some (w.volumeButtonSetChecked (!w.m_volumeButton.checked))
  | .fullscreenClicked => some w.toggleFullscreen
  | .escapePressed =>
    some (if w.fullScreen then { w with fullScreen := false } else w)
  | .rateChosen index => some (w.rateBoxSetCurrentIndex index)
  | .playlistActionTriggered =>
    some (w.playlistActionSetChecked (!w.m_playlistAction.checked))
  | .equalizerActionTriggered =>
    some (w.equalizerActionSetChecked (!w.m_equalizerAction.checked))
  | .seekBackward =>
    some { w with m_player := w.m_player.setPosition (w.m_player.position - 5000) }
  | .seekForward =>
    some { w with m_player := w.m_player.setPosition (w.m_player.position + 5000) }
  | .positionChanged position =>
    some (MediaPlayer.updatePosition position
      { w with m_player := { w.m_player with position := position } })
  | .durationChanged duration =>
    some (MediaPlayer.updateDuration duration
      { w with m_player := { w.m_player with duration := duration } })
  | .playbackStateChanged state =>
    some (MediaPlayer.playbackStateChanged w.m_player.playbackState
      { w with m_player := { w.m_player with playbackState := state } })
  | .mediaStatusChanged status => w.handleMediaStatus status
  | .errorOccurred error errorString => some (w.handlePlayerError error errorString)

/-- A sequence of events, first event first; `none` when a slot fails. -/
def run (es : List Event) (w : MediaPlayer) : Option MediaPlayer :=
  match es with
  | [] => some w
  | e :: rest => (e.apply w).bind (run rest)

/-! ## Properties used in the statements -/

/-- The playlist cursor is unset (`-1`) or the index of a row. -/
def CursorValid (w : MediaPlayer) : Prop :=
  w.m_playlistWidget.currentRow = -1 ∨
    (0 ≤ w.m_playlistWidget.currentRow ∧
      w.m_playlistWidget.currentRow < w.m_playlistWidget.count)

instance (w : MediaPlayer) : Decidable (CursorValid w) := by
  unfold CursorValid; infer_instance

/-- A window whose playlist holds the given references, in order, with the
cursor put on `row` (used to state examples). -/
def windowWith (files : List String) (row : Int) : MediaPlayer :=
  let w := files.foldl (fun acc file => MediaPlayer.addToPlaylist file acc) MediaPlayer.freshWindow
  { w with m_playlistWidget := w.m_playlistWidget.setCurrentRow row }

/-- A new window on which the volume slider, the rate selector and the two
view actions have been set by hand (used to state examples). -/
def windowAt (volume rate : Int) (showPlaylist showEqualizer : Bool) : MediaPlayer :=
  MediaPlayer.equalizerActionSetChecked showEqualizer
    (MediaPlayer.playlistActionSetChecked showPlaylist
      (MediaPlayer.rateBoxSetCurrentIndex rate
        (MediaPlayer.volumeSliderSetValue volume MediaPlayer.freshWindow)))

/-- The widgets whose state `saveSettings` stores: the playlist view, the
volume slider, the rate selector and the two view actions. -/
def persistedWidgets (w : MediaPlayer) :
    QListWidget × QSlider × QComboBox × QAction × QAction :=
  (w.m_playlistWidget, w.m_volumeSlider, w.m_playbackRateBox, w.m_playlistAction,
    w.m_equalizerAction)

/-- The volume slider keeps the range given in `setupUi`, and its value lies
in that range. -/
def VolumeSliderValid (sl : QSlider) : Prop :=
  sl.minimum = 0 ∧ sl.maximum = 100 ∧ 0 ≤ sl.value ∧ sl.value ≤ 100

/-- The rate selector keeps the entries given in `setupUi`, and its index is
`-1` or the index of an entry. -/
def RateBoxValid (cb : QComboBox) : Prop :=
  cb.items = MediaPlayer.rateLabels ∧ -1 ≤ cb.currentIndex ∧ cb.currentIndex < 6

/-- What the toolkit maintains about the stored widgets in every window. -/
def WidgetsValid (w : MediaPlayer) : Prop :=
  CursorValid w ∧ VolumeSliderValid w.m_volumeSlider ∧ RateBoxValid w.m_playbackRateBox

/-! ## Lemmas on the slots -/

/-- Below one hundred `pad2` gives exactly two characters. -/
theorem pad2_length (n : Nat) (h : n < 100) : (pad2 n).length = 2 := by
  interval_cases n <;> rfl

/-- A value that fits 31 bits survives `static_cast<int>`. -/
theorem toInt32_of_small (x : Int) (h0 : 0 ≤ x) (h1 : x < 2 ^ 31) : toInt32 x = x := by
  unfold toInt32
  norm_num at h1 ⊢
  omega

/-- The rendering of `QTime(0,0,0).addMSecs(ms)` for a time within the day. -/
theorem QTime.toString_addMSecs (ms : Int) (h0 : 0 ≤ ms) (h1 : ms < 86400000) :
    ((QTime.ofHMS 0 0 0).addMSecs ms).toString =
      pad2 (ms / 3600000).toNat ++ ":" ++ pad2 (ms / 60000 % 60).toNat ++ ":" ++
        pad2 (ms / 1000 % 60).toNat := by
  have e : (0 + ms) % 86400000 = ms := by omega
  have em : ms % 3600000 / 60000 = ms / 60000 % 60 := by omega
  simp only [QTime.toString, QTime.hour, QTime.minute, QTime.second, QTime.addMSecs,
    QTime.ofHMS, MSECS_PER_DAY, MSECS_PER_HOUR, MSECS_PER_MIN]
  norm_num
  rw [Int.emod_eq_of_lt h0 h1, em]

/-- The rendering `hh:mm:ss` has eight characters. -/
theorem QTime.toString_length (t : QTime) (h0 : 0 ≤ t.mds) (h1 : t.mds < 86400000) :
    t.toString.length = 8 := by
  have hh : (t.mds / 3600000).toNat < 100 := by omega
  have hm : (t.mds % 3600000 / 60000).toNat < 100 := by omega
  have hs : (t.mds / 1000 % 60).toNat < 100 := by omega
  simp only [QTime.toString, QTime.hour, QTime.minute, QTime.second, MSECS_PER_HOUR,
    MSECS_PER_MIN, String.length_append, pad2_length _ hh, pad2_length _ hm,
    pad2_length _ hs]
  rfl

namespace MediaPlayer

theorem updatePlayButton_playlist (w : MediaPlayer) :
    (updatePlayButton w).m_playlistWidget = w.m_playlistWidget := by
  unfold updatePlayButton; split <;> rfl

theorem updatePlayButton_player (w : MediaPlayer) :
    (updatePlayButton w).m_player = w.m_player := by
  unfold updatePlayButton; split <;> rfl

theorem playbackStateChanged_playlist (st : PlaybackState) (w : MediaPlayer) :
    (playbackStateChanged st w).m_playlistWidget = w.m_playlistWidget := by
  unfold playbackStateChanged; split
  · rfl
  · exact updatePlayButton_playlist w

theorem playbackStateChanged_player (st : PlaybackState) (w : MediaPlayer) :
    (playbackStateChanged st w).m_player = w.m_player := by
  unfold playbackStateChanged; split
  · rfl
  · exact updatePlayButton_player w

theorem playFile_playlist (filePath : String) (w : MediaPlayer) :
    (playFile filePath w).m_playlistWidget = w.m_playlistWidget := by
  simp [playFile, playerPlay, playbackStateChanged_playlist]

theorem playFile_player (filePath : String) (w : MediaPlayer) :
    (playFile filePath w).m_player =
      (w.m_player.setSource (QUrl.fromUserInput filePath)).play := by
  simp [playFile, playerPlay, playbackStateChanged_player]

theorem playFile_calls (filePath : String) (w : MediaPlayer) :
    (playFile filePath w).m_player.calls =
      w.m_player.calls ++ [.setSource (QUrl.fromUserInput filePath), .play] := by
  simp [playFile_player, QMediaPlayer.play, QMediaPlayer.setSource]

theorem playFile_source (filePath : String) (w : MediaPlayer) :
    (playFile filePath w).m_player.source = some (QUrl.fromUserInput filePath) := by
  simp [playFile_player, QMediaPlayer.play, QMediaPlayer.setSource]

/-- What `nextTrack` does when there is a following row. -/
theorem nextTrack_of_lt (w : MediaPlayer) (it : QListWidgetItem)
    (hlo : -1 ≤ w.m_playlistWidget.currentRow)
    (hhi : w.m_playlistWidget.currentRow < w.m_playlistWidget.count - 1)
    (hit : w.m_playlistWidget.items.get? (w.m_playlistWidget.currentRow + 1).toNat = some it) :
    ∃ w1, nextTrack w = some w1 ∧
      w1.m_playlistWidget.items = w.m_playlistWidget.items ∧
      w1.m_playlistWidget.currentRow = w.m_playlistWidget.currentRow + 1 ∧
      w1.m_player = (w.m_player.setSource (QUrl.fromUserInput it.userData)).play := by
  have h1 : (0 : Int) ≤ w.m_playlistWidget.currentRow + 1 := by omega
  have h2 : w.m_playlistWidget.currentRow + 1 < w.m_playlistWidget.count := by omega
  simp at hit
  refine ⟨playFile it.userData
      { w with m_playlistWidget :=
          { w.m_playlistWidget with currentRow := w.m_playlistWidget.currentRow + 1 } },
    ?_, ?_, ?_, ?_⟩
  · simp [nextTrack, hhi, QListWidget.setCurrentRow, h1, h2, QListWidget.currentItem,
      QListWidget.item, hit, playSelectedItem]
  · rw [playFile_playlist]
  · rw [playFile_playlist]
  · rw [playFile_player]

/-- What `previousTrack` does when there is a preceding row. -/
theorem previousTrack_of_pos (w : MediaPlayer) (it : QListWidgetItem)
    (hlo : 0 < w.m_playlistWidget.currentRow)
    (hhi : w.m_playlistWidget.currentRow ≤ w.m_playlistWidget.count)
    (hit : w.m_playlistWidget.items.get? (w.m_playlistWidget.currentRow - 1).toNat = some it) :
    ∃ w1, previousTrack w = some w1 ∧
      w1.m_playlistWidget.items = w.m_playlistWidget.items ∧
      w1.m_playlistWidget.currentRow = w.m_playlistWidget.currentRow - 1 ∧
      w1.m_player = (w.m_player.setSource (QUrl.fromUserInput it.userData)).play := by
  have h1 : (0 : Int) ≤ w.m_playlistWidget.currentRow - 1 := by omega
  have h2 : w.m_playlistWidget.currentRow - 1 < w.m_playlistWidget.count := by omega
  simp at hit
  refine ⟨playFile it.userData
      { w with m_playlistWidget :=
          { w.m_playlistWidget with currentRow := w.m_playlistWidget.currentRow - 1 } },
    ?_, ?_, ?_, ?_⟩
  · simp [previousTrack, hlo, QListWidget.setCurrentRow, h1, h2, QListWidget.currentItem,
      QListWidget.item, hit, playSelectedItem]
  · rw [playFile_playlist]
  · rw [playFile_playlist]
  · rw [playFile_player]

/-- With a valid cursor `nextTrack` succeeds and keeps the cursor valid. -/
theorem nextTrack_valid (w : MediaPlayer) (h : CursorValid w) :
    ∃ w1, nextTrack w = some w1 ∧ CursorValid w1 := by
  by_cases hg : w.m_playlistWidget.currentRow < w.m_playlistWidget.count - 1
  · have hlo : -1 ≤ w.m_playlistWidget.currentRow := by
      rcases h with h | h <;> omega
    have hlen : (w.m_playlistWidget.currentRow + 1).toNat < w.m_playlistWidget.items.length := by
      simp only [QListWidget.count] at hg; omega
    obtain ⟨w1, hw1, hi, hr, _⟩ := nextTrack_of_lt w _ hlo hg (List.get?_eq_get hlen)
    refine ⟨w1, hw1, Or.inr ?_⟩
    simp only [QListWidget.count, hi, hr] at hg ⊢
    omega
  · exact ⟨w, by simp [nextTrack, hg], h⟩

/-- With a valid cursor `previousTrack` succeeds and keeps the cursor valid. -/
theorem previousTrack_valid (w : MediaPlayer) (h : CursorValid w) :
    ∃ w1, previousTrack w = some w1 ∧ CursorValid w1 := by
  by_cases hg : 0 < w.m_playlistWidget.currentRow
  · have hhi : w.m_playlistWidget.currentRow < w.m_playlistWidget.count := by
      rcases h with h | h <;> omega
    have hlen : (w.m_playlistWidget.currentRow - 1).toNat < w.m_playlistWidget.items.length := by
      simp only [QListWidget.count] at hhi; omega
    obtain ⟨w1, hw1, hi, hr, _⟩ :=
      previousTrack_of_pos w _ hg (le_of_lt hhi) (List.get?_eq_get hlen)
    refine ⟨w1, hw1, Or.inr ?_⟩
    simp only [QListWidget.count, hi, hr] at hhi ⊢
    omega
  · exact ⟨w, by simp [previousTrack, hg], h⟩

/-- With a valid cursor `handleMediaStatus` succeeds and keeps the cursor valid. -/
theorem handleMediaStatus_valid (status : MediaStatus) (w : MediaPlayer) (h : CursorValid w) :
    ∃ w1, handleMediaStatus status w = some w1 ∧ CursorValid w1 := by
  cases status
  case EndOfMedia => exact nextTrack_valid w h
  all_goals exact ⟨w, rfl, h⟩

theorem addToPlaylist_valid (filePath : String) (w : MediaPlayer) (h : CursorValid w) :
    CursorValid (addToPlaylist filePath w) := by
  simp only [CursorValid, addToPlaylist, QListWidget.addItem, QListWidget.count,
    List.length_append, List.length_singleton] at h ⊢
  omega

theorem playFile_valid (filePath : String) (w : MediaPlayer) (h : CursorValid w) :
    CursorValid (playFile filePath w) := by
  simp only [CursorValid, playFile_playlist] at h ⊢
  exact h

theorem toggleMute_volume (muted : Bool) (w : MediaPlayer) :
    (toggleMute muted w).m_audioOutput.volume = w.m_audioOutput.volume := rfl

theorem volumeButtonSetChecked_volume (c : Bool) (w : MediaPlayer) :
    (volumeButtonSetChecked c w).m_audioOutput.volume = w.m_audioOutput.volume := by
  unfold volumeButtonSetChecked QToolButton.setChecked
  by_cases h : w.m_volumeButton.checked = c <;> simp [h, toggleMute, QAudioOutput.setMuted]

/-- The checked state after `setChecked(c)` is `c`. -/
theorem volumeButtonSetChecked_checked (c : Bool) (w : MediaPlayer) :
    (volumeButtonSetChecked c w).m_volumeButton.checked = c := by
  unfold volumeButtonSetChecked QToolButton.setChecked
  by_cases h : w.m_volumeButton.checked = c <;> simp [h, toggleMute, QToolButton.setIcon]

/-- The mute flag of the engine after `setChecked(c)`: it follows `c` when the
button changes state. -/
theorem volumeButtonSetChecked_muted (c : Bool) (w : MediaPlayer) :
    (volumeButtonSetChecked c w).m_audioOutput.muted =
      if w.m_volumeButton.checked = c then w.m_audioOutput.muted else c := by
  unfold volumeButtonSetChecked QToolButton.setChecked
  by_cases h : w.m_volumeButton.checked = c <;> simp [h, toggleMute, QAudioOutput.setMuted]

/-- The requests to the audio output made by `setChecked(c)`. -/
theorem volumeButtonSetChecked_calls (c : Bool) (w : MediaPlayer) :
    (volumeButtonSetChecked c w).m_audioOutput.calls =
      w.m_audioOutput.calls ++ (if w.m_volumeButton.checked = c then [] else [.setMuted c]) := by
  unfold volumeButtonSetChecked QToolButton.setChecked
  by_cases h : w.m_volumeButton.checked = c <;> simp [h, toggleMute, QAudioOutput.setMuted]

/-- The icon after `setChecked(c)` when the icon was already the one for `c`. -/
theorem volumeButtonSetChecked_icon (c : Bool) (w : MediaPlayer)
    (h : w.m_volumeButton.icon = if c then .SP_MediaVolumeMuted else .SP_MediaVolume) :
    (volumeButtonSetChecked c w).m_volumeButton.icon =
      if c then .SP_MediaVolumeMuted else .SP_MediaVolume := by
  unfold volumeButtonSetChecked QToolButton.setChecked
  by_cases hc : w.m_volumeButton.checked = c <;> simp [hc, toggleMute, QToolButton.setIcon, h]

/-- Bounding a percentage over 100 to the unit interval is bounding the
percentage to 0..100. -/
theorem bound_percent (v : Int) :
    max (0 : ℚ) (min ((v : ℚ) / 100) 1) = ((max 0 (min v 100) : Int) : ℚ) / 100 := by
  rcases le_total v 0 with h | h
  · have h1 : ((v : ℚ) / 100) ≤ 0 := by
      have : (v : ℚ) ≤ 0 := by exact_mod_cast h
      linarith
    have h2 : min v 100 = v := min_eq_left (by omega)
    rw [min_eq_left (by linarith), max_eq_left h1, h2, max_eq_left h]
    simp
  · rcases le_total v 100 with h100 | h100
    · have hq0 : (0 : ℚ) ≤ (v : ℚ) := by exact_mod_cast h
      have hq1 : (v : ℚ) ≤ 100 := by exact_mod_cast h100
      rw [min_eq_left (by linarith), max_eq_right (by linarith), min_eq_left h100,
        max_eq_right h]
    · have hq1 : (100 : ℚ) ≤ (v : ℚ) := by exact_mod_cast h100
      rw [min_eq_right (by linarith), max_eq_right (by norm_num), min_eq_right h100,
        max_eq_right (by norm_num)]
      norm_num

theorem playerPlay_player (w : MediaPlayer) : (playerPlay w).m_player = w.m_player.play := by
  simp [playerPlay, playbackStateChanged_player]

theorem playerPause_player (w : MediaPlayer) : (playerPause w).m_player = w.m_player.pause := by
  simp [playerPause, playbackStateChanged_player]

/-- The engine side of `togglePlayPause`. -/
theorem togglePlayPause_player (w : MediaPlayer) :
    (togglePlayPause w).m_player =
      if w.m_player.playbackState = .PlayingState then w.m_player.pause else w.m_player.play := by
  unfold togglePlayPause
  split
  · exact playerPause_player w
  · exact playerPlay_player w

end MediaPlayer

/-! ## Playlist navigation -/

/-- C1: at the last row `nextTrack`, and at row 0 `previousTrack`, return the
window exactly as it was: the cursor stays, the engine receives no request
(no `setSource`, no `play`), and nothing wraps around. -/
theorem navigation_absorbed_at_ends (w : MediaPlayer) :
    (w.m_playlistWidget.currentRow = w.m_playlistWidget.count - 1 → w.nextTrack = some w) ∧
    (w.m_playlistWidget.currentRow = 0 → w.previousTrack = some w) := by
  constructor
  · intro h
    simp [MediaPlayer.nextTrack, h]
  · intro h
    simp [MediaPlayer.previousTrack, h]

/-- Witness for C1 on the playlist A, B, C: `nextTrack` at row 2 and
`previousTrack` at row 0. -/
theorem navigation_absorbed_at_ends_witness :
    (windowWith ["A", "B", "C"] 2).nextTrack = some (windowWith ["A", "B", "C"] 2) ∧
    (windowWith ["A", "B", "C"] 0).previousTrack = some (windowWith ["A", "B", "C"] 0) :=
  ⟨(navigation_absorbed_at_ends (windowWith ["A", "B", "C"] 2)).1 (by decide),
   (navigation_absorbed_at_ends (windowWith ["A", "B", "C"] 0)).2 (by decide)⟩

/-- C2: with the cursor on a row `i` that has both neighbours,
`nextTrack` then `previousTrack` brings the cursor back to `i`, the engine
ends with row `i` as its source after being handed row `i+1` and then row `i`;
`previousTrack` then `nextTrack` does the same through row `i-1`. -/
theorem next_previous_round_trip (w : MediaPlayer) (i : Nat)
    (hrow : w.m_playlistWidget.currentRow = i) (h0 : 0 < i)
    (h1 : (i : Int) < w.m_playlistWidget.count - 1) :
    ∃ a b c w1 w2,
      w.m_playlistWidget.items.get? (i - 1) = some a ∧
      w.m_playlistWidget.items.get? i = some b ∧
      w.m_playlistWidget.items.get? (i + 1) = some c ∧
      w.nextTrack.bind MediaPlayer.previousTrack = some w1 ∧
      w1.m_playlistWidget.items = w.m_playlistWidget.items ∧
      w1.m_playlistWidget.currentRow = i ∧
      w1.m_player.source = some (QUrl.fromUserInput b.userData) ∧
      w1.m_player.calls = w.m_player.calls ++
        [.setSource (QUrl.fromUserInput c.userData), .play,
         .setSource (QUrl.fromUserInput b.userData), .play] ∧
      w.previousTrack.bind MediaPlayer.nextTrack = some w2 ∧
      w2.m_playlistWidget.items = w.m_playlistWidget.items ∧
      w2.m_playlistWidget.currentRow = i ∧
      w2.m_player.source = some (QUrl.fromUserInput b.userData) ∧
      w2.m_player.calls = w.m_player.calls ++
        [.setSource (QUrl.fromUserInput a.userData), .play,
         .setSource (QUrl.fromUserInput b.userData), .play] := by
  have hlen : i + 1 < w.m_playlistWidget.items.length := by
    simp only [QListWidget.count] at h1; omega
  obtain ⟨a, ha⟩ : ∃ a, w.m_playlistWidget.items.get? (i - 1) = some a :=
    ⟨_, List.get?_eq_get (by omega)⟩
  obtain ⟨b, hb⟩ : ∃ b, w.m_playlistWidget.items.get? i = some b :=
    ⟨_, List.get?_eq_get (by omega)⟩
  obtain ⟨c, hc⟩ : ∃ c, w.m_playlistWidget.items.get? (i + 1) = some c :=
    ⟨_, List.get?_eq_get hlen⟩
  have hcount : ∀ x : MediaPlayer, x.m_playlistWidget.count = (x.m_playlistWidget.items.length : Int) :=
    fun _ => rfl
  have e1 : ((i : Int) + 1).toNat = i + 1 := by omega
  have e2 : ((i : Int) - 1).toNat = i - 1 := by omega
  have e3 : ((i : Int) + 1 - 1).toNat = i := by omega
  have e4 : ((i : Int) - 1 + 1).toNat = i := by omega
  -- forwards, then back
  obtain ⟨n1, hn1, hn1i, hn1r, hn1p⟩ := MediaPlayer.nextTrack_of_lt w c (by omega) (by omega)
    (by rw [hrow, e1]; exact hc)
  obtain ⟨p1, hp1, hp1i, hp1r, hp1p⟩ := MediaPlayer.previousTrack_of_pos n1 b
    (by omega) (by rw [hcount, hn1i]; omega) (by rw [hn1r, hn1i, hrow, e3]; exact hb)
  -- backwards, then forth
  obtain ⟨p2, hp2, hp2i, hp2r, hp2p⟩ := MediaPlayer.previousTrack_of_pos w a (by omega)
    (by rw [hcount]; omega) (by rw [hrow, e2]; exact ha)
  obtain ⟨n2, hn2, hn2i, hn2r, hn2p⟩ := MediaPlayer.nextTrack_of_lt p2 b
    (by omega) (by rw [hcount, hp2i]; omega) (by rw [hp2r, hp2i, hrow, e4]; exact hb)
  refine ⟨a, b, c, p1, n2, ha, hb, hc, ?_, ?_, ?_, ?_, ?_, ?_, ?_, ?_, ?_, ?_⟩
  · rw [hn1, Option.some_bind, hp1]
  · rw [hp1i, hn1i]
  · omega
  · rw [hp1p]; rfl
  · rw [hp1p, hn1p]; simp [QMediaPlayer.play, QMediaPlayer.setSource]
  · rw [hp2, Option.some_bind, hn2]
  · rw [hn2i, hp2i]
  · omega
  · rw [hn2p]; rfl
  · rw [hn2p, hp2p]; simp [QMediaPlayer.play, QMediaPlayer.setSource]

/-- Witness for C2: the playlist A, B, C with the cursor on row 1. -/
theorem next_previous_round_trip_witness :
    ∃ a b c w1 w2,
      (windowWith ["A", "B", "C"] 1).m_playlistWidget.items.get? (1 - 1) = some a ∧
      (windowWith ["A", "B", "C"] 1).m_playlistWidget.items.get? 1 = some b ∧
      (windowWith ["A", "B", "C"] 1).m_playlistWidget.items.get? (1 + 1) = some c ∧
      (windowWith ["A", "B", "C"] 1).nextTrack.bind MediaPlayer.previousTrack = some w1 ∧
      w1.m_playlistWidget.items = (windowWith ["A", "B", "C"] 1).m_playlistWidget.items ∧
      w1.m_playlistWidget.currentRow = (1 : Nat) ∧
      w1.m_player.source = some (QUrl.fromUserInput b.userData) ∧
      w1.m_player.calls = (windowWith ["A", "B", "C"] 1).m_player.calls ++
        [.setSource (QUrl.fromUserInput c.userData), .play,
         .setSource (QUrl.fromUserInput b.userData), .play] ∧
      (windowWith ["A", "B", "C"] 1).previousTrack.bind MediaPlayer.nextTrack = some w2 ∧
      w2.m_playlistWidget.items = (windowWith ["A", "B", "C"] 1).m_playlistWidget.items ∧
      w2.m_playlistWidget.currentRow = (1 : Nat) ∧
      w2.m_player.source = some (QUrl.fromUserInput b.userData) ∧
      w2.m_player.calls = (windowWith ["A", "B", "C"] 1).m_player.calls ++
        [.setSource (QUrl.fromUserInput a.userData), .play,
         .setSource (QUrl.fromUserInput b.userData), .play] :=
  next_previous_round_trip (windowWith ["A", "B", "C"] 1) 1 (by decide) (by decide) (by decide)

/-- Every playlist call succeeds on a valid cursor and keeps it valid. -/
theorem PlaylistCall.apply_cursorValid (c : PlaylistCall) (w : MediaPlayer) (h : CursorValid w) :
    ∃ w1, c.apply w = some w1 ∧ CursorValid w1 := by
  cases c with
  | addToPlaylist filePath => exact ⟨_, rfl, MediaPlayer.addToPlaylist_valid filePath w h⟩
  | playFile filePath => exact ⟨_, rfl, MediaPlayer.playFile_valid filePath w h⟩
  | nextTrack => exact MediaPlayer.nextTrack_valid w h
  | previousTrack => exact MediaPlayer.previousTrack_valid w h
  | handleMediaStatus status => exact MediaPlayer.handleMediaStatus_valid status w h

/-- A sequence of playlist calls succeeds on a valid cursor and keeps it valid. -/
theorem applyCalls_valid (cs : List PlaylistCall) :
    ∀ w : MediaPlayer, CursorValid w → ∃ w1, applyCalls cs w = some w1 ∧ CursorValid w1 := by
  induction cs with
  | nil => intro w h; exact ⟨w, rfl, h⟩
  | cons c rest ih =>
    intro w h
    obtain ⟨w1, hw1, hv1⟩ := c.apply_cursorValid w h
    obtain ⟨w2, hw2, hv2⟩ := ih w1 hv1
    exact ⟨w2, by simp [applyCalls, hw1, hw2], hv2⟩

/-- C3: starting without selection (in particular from the empty playlist of
a new window), every sequence of `addToPlaylist`, `playFile`, `nextTrack`,
`previousTrack` and `handleMediaStatus` calls runs to the end (no call meets a
null item) and leaves the cursor unset (`-1`) or on a row:
`0 ≤ currentRow < count`. -/
theorem cursor_invariant (cs : List PlaylistCall) (w0 : MediaPlayer)
    (hrow : w0.m_playlistWidget.currentRow = -1) :
    ∃ w, applyCalls cs w0 = some w ∧
      (w.m_playlistWidget.currentRow = -1 ∨
        (0 ≤ w.m_playlistWidget.currentRow ∧
          w.m_playlistWidget.currentRow < w.m_playlistWidget.count)) :=
  applyCalls_valid cs w0 (Or.inl hrow)

/-- Witness for C3: a run from the freshly built window that adds two files
and walks past both ends of the playlist. -/
theorem cursor_invariant_witness :
    MediaPlayer.freshWindow.m_playlistWidget.items = [] ∧
    ∃ w, applyCalls
        [.addToPlaylist "/m/a.mp3", .addToPlaylist "/m/b.mp3", .playFile "/m/a.mp3",
         .nextTrack, .nextTrack, .handleMediaStatus .EndOfMedia, .previousTrack,
         .previousTrack] MediaPlayer.freshWindow = some w ∧
      (w.m_playlistWidget.currentRow = -1 ∨
        (0 ≤ w.m_playlistWidget.currentRow ∧
          w.m_playlistWidget.currentRow < w.m_playlistWidget.count)) :=
  ⟨rfl, cursor_invariant _ MediaPlayer.freshWindow rfl⟩

/-! ## Volume and mute -/

/-- On the signal path the volume slider, whose range is 0..100, hands
`setVolume` the bounded value. -/
theorem QSlider.valueChanged_bounded (v x : Int) (sl : QSlider) (h : VolumeSliderValid sl)
    (hx : (sl.setValue v).2 = some x) : x = max 0 (min v 100) ∧ 0 ≤ x ∧ x ≤ 100 := by
  obtain ⟨h1, h2, _, _⟩ := h
  unfold QSlider.setValue at hx
  rw [h1, h2] at hx
  by_cases hc : max 0 (min v 100) = sl.value
  · simp [hc] at hx
  · simp only [hc, if_false, Option.some.injEq] at hx
    subst hx
    exact ⟨rfl, le_max_left _ _, max_le (by norm_num) (min_le_right _ _)⟩

/-- C4: for every integer `v`, after `setVolume(v)` the volume held by the
audio output is `clamp(v, 0, 100) / 100`, a fraction between 0 and 1 (the slot
forwards `v / 100`, which the output bounds to the unit interval). -/
theorem setVolume_engine_volume (v : Int) (w : MediaPlayer) :
    (w.setVolume v).m_audioOutput.volume = ((max 0 (min v 100) : Int) : ℚ) / 100 ∧
    0 ≤ (w.setVolume v).m_audioOutput.volume ∧
    (w.setVolume v).m_audioOutput.volume ≤ 1 := by
  have hv : (w.setVolume v).m_audioOutput.volume = max (0 : ℚ) (min ((v : ℚ) / 100) 1) := by
    unfold MediaPlayer.setVolume
    by_cases h : v = 0
    · simp only [h, if_true, MediaPlayer.volumeButtonSetChecked_volume]
      simp [QAudioOutput.setVolume]
    · simp only [h, if_false, MediaPlayer.volumeButtonSetChecked_volume]
      simp [QAudioOutput.setVolume]
  refine ⟨by rw [hv, MediaPlayer.bound_percent], ?_, ?_⟩
  · rw [hv]; exact le_max_left _ _
  · rw [hv]; exact max_le (by norm_num) (min_le_right _ _)

/-- C5, as the code has it at the start: on a new window, where the volume
button is unchecked and the output is not muted, `setVolume(0)` checks the
button, the `toggled` signal runs `toggleMute(true)`, and the output ends up
muted by a `setMuted(true)` request. -/
theorem setVolume_zero_mutes_engine :
    (MediaPlayer.freshWindow.setVolume 0).m_audioOutput.muted ≠
      MediaPlayer.freshWindow.m_audioOutput.muted ∧
    MediaPlayer.freshWindow.m_audioOutput.muted = false ∧
    (MediaPlayer.freshWindow.setVolume 0).m_audioOutput.muted = true ∧
    (MediaPlayer.freshWindow.setVolume 0).m_audioOutput.calls.getLast? =
      some (AudioCall.setMuted true) := by
  have hm : (MediaPlayer.freshWindow.setVolume 0).m_audioOutput.muted = true := by
    rw [MediaPlayer.setVolume, if_pos rfl, MediaPlayer.volumeButtonSetChecked_muted]
    rfl
  refine ⟨?_, rfl, hm, ?_⟩
  · rw [hm]; exact fun h => Bool.noConfusion h
  · rw [MediaPlayer.setVolume, if_pos rfl, MediaPlayer.volumeButtonSetChecked_calls]
    simp [MediaPlayer.freshWindow, MediaPlayer.setupPlayer, MediaPlayer.setupUi,
      QToolButton.setIcon]

/-- C5, amended: `setVolume(v)` makes no direct mute request, but it sets the
volume button to checked exactly when `v = 0`; when that changes the button,
`toggled` runs `toggleMute` and the output's mute flag becomes `v = 0`;
when the button already had that state the flag keeps its value.  The
requests to the output are `setVolume(v / 100)`, then `setMuted` in the first
case only. -/
theorem setVolume_mute_follows_button (v : Int) (w : MediaPlayer) :
    (w.setVolume v).m_audioOutput.muted =
      (if w.m_volumeButton.checked = decide (v = 0) then w.m_audioOutput.muted
       else decide (v = 0)) ∧
    (w.setVolume v).m_audioOutput.calls =
      w.m_audioOutput.calls ++ [.setVolume ((v : ℚ) / 100)] ++
        (if w.m_volumeButton.checked = decide (v = 0) then []
         else [.setMuted (decide (v = 0))]) := by
  unfold MediaPlayer.setVolume
  by_cases h : v = 0
  · simp only [h, if_true, MediaPlayer.volumeButtonSetChecked_muted,
      MediaPlayer.volumeButtonSetChecked_calls]
    simp [QAudioOutput.setVolume, QToolButton.setIcon]
  · simp only [h, if_false, MediaPlayer.volumeButtonSetChecked_muted,
      MediaPlayer.volumeButtonSetChecked_calls]
    simp [QAudioOutput.setVolume, QToolButton.setIcon, h]

/-- C6: whatever the window was before, after `setVolume(0)` the volume button
is checked and shows the muted icon, and after `setVolume(v)` with
`1 ≤ v ≤ 100` it is unchecked and shows the volume icon. -/
theorem setVolume_muted_indicator (v : Int) (w : MediaPlayer) :
    ((w.setVolume 0).m_volumeButton.checked = true ∧
      (w.setVolume 0).m_volumeButton.icon = .SP_MediaVolumeMuted) ∧
    (1 ≤ v → v ≤ 100 →
      (w.setVolume v).m_volumeButton.checked = false ∧
      (w.setVolume v).m_volumeButton.icon = .SP_MediaVolume) := by
  refine ⟨⟨?_, ?_⟩, fun h1 _ => ⟨?_, ?_⟩⟩
  · rw [MediaPlayer.setVolume, if_pos rfl, MediaPlayer.volumeButtonSetChecked_checked]
  · rw [MediaPlayer.setVolume, if_pos rfl, MediaPlayer.volumeButtonSetChecked_icon _ _ rfl]
    rfl
  · have h : v ≠ 0 := by omega
    rw [MediaPlayer.setVolume, if_neg h, MediaPlayer.volumeButtonSetChecked_checked]
  · have h : v ≠ 0 := by omega
    rw [MediaPlayer.setVolume, if_neg h, MediaPlayer.volumeButtonSetChecked_icon _ _ rfl]
    rfl

/-- Witness for C6: the prior states are a new window after an explicit
`toggleMute(false)` (then volume 0) and after an explicit `toggleMute(true)`
(then volume 70). -/
theorem setVolume_muted_indicator_witness :
    (((MediaPlayer.freshWindow.toggleMute false).setVolume 0).m_volumeButton.checked = true ∧
      ((MediaPlayer.freshWindow.toggleMute false).setVolume 0).m_volumeButton.icon =
        .SP_MediaVolumeMuted) ∧
    (((MediaPlayer.freshWindow.toggleMute true).setVolume 70).m_volumeButton.checked = false ∧
      ((MediaPlayer.freshWindow.toggleMute true).setVolume 70).m_volumeButton.icon =
        .SP_MediaVolume) :=
  ⟨(setVolume_muted_indicator 0 (MediaPlayer.freshWindow.toggleMute false)).1,
   (setVolume_muted_indicator 70 (MediaPlayer.freshWindow.toggleMute true)).2
     (by decide) (by decide)⟩

/-! ## Transport -/

/-- C7: `togglePlayPause` sends `pause` when the engine reports Playing and
`play` in every other state; from Stopped, the first call leaves the engine
Playing and the second leaves it Paused, the two requests being `play` and then
`pause`. -/
theorem togglePlayPause_from_stopped (w : MediaPlayer)
    (h : w.m_player.playbackState = .StoppedState) :
    (∀ x : MediaPlayer, x.togglePlayPause.m_player.calls =
      x.m_player.calls ++ [if x.m_player.playbackState = .PlayingState then .pause else .play]) ∧
    w.togglePlayPause.m_player.playbackState = .PlayingState ∧
    w.togglePlayPause.togglePlayPause.m_player.playbackState = .PausedState ∧
    w.togglePlayPause.togglePlayPause.m_player.calls = w.m_player.calls ++ [.play, .pause] := by
  have h1 : w.togglePlayPause.m_player = w.m_player.play := by
    rw [MediaPlayer.togglePlayPause_player, h]; rfl
  have h2 : w.togglePlayPause.togglePlayPause.m_player = w.m_player.play.pause := by
    rw [MediaPlayer.togglePlayPause_player, h1]; rfl
  refine ⟨fun x => ?_, ?_, ?_, ?_⟩
  · rw [MediaPlayer.togglePlayPause_player]
    split <;> simp [QMediaPlayer.pause, QMediaPlayer.play]
  · rw [h1]; rfl
  · rw [h2]; rfl
  · rw [h2]; simp [QMediaPlayer.pause, QMediaPlayer.play]

/-- Witness for C7: the new window, whose engine is Stopped. -/
theorem togglePlayPause_from_stopped_witness :
    MediaPlayer.freshWindow.m_player.playbackState = .StoppedState ∧
    MediaPlayer.freshWindow.togglePlayPause.m_player.playbackState = .PlayingState ∧
    MediaPlayer.freshWindow.togglePlayPause.togglePlayPause.m_player.playbackState =
      .PausedState ∧
    MediaPlayer.freshWindow.togglePlayPause.togglePlayPause.m_player.calls =
      MediaPlayer.freshWindow.m_player.calls ++ [.play, .pause] :=
  ⟨rfl, (togglePlayPause_from_stopped MediaPlayer.freshWindow rfl).2⟩

/-- C8: for a position `p` and an engine duration `d` below 24 hours,
`updatePosition(p)` sets the time label to the position and the duration, each
as two-digit hours (`ms / 3600000`), minutes (`ms / 60000 mod 60`) and seconds
(`ms / 1000 mod 60`) joined by colons, with " / " between the two sides, 19
characters in all; for `p = 3725000` and `d = 7384000` the label is
"01:02:05 / 02:03:04". -/
theorem updatePosition_time_label (p : Int) (w : MediaPlayer)
    (hp0 : 0 ≤ p) (hp1 : p < 86400000)
    (hd0 : 0 ≤ w.m_player.duration) (hd1 : w.m_player.duration < 86400000) :
    (w.updatePosition p).m_timeLabel =
      (pad2 (p / 3600000).toNat ++ ":" ++ pad2 (p / 60000 % 60).toNat ++ ":" ++
        pad2 (p / 1000 % 60).toNat) ++ " / " ++
      (pad2 (w.m_player.duration / 3600000).toNat ++ ":" ++
        pad2 (w.m_player.duration / 60000 % 60).toNat ++ ":" ++
        pad2 (w.m_player.duration / 1000 % 60).toNat) ∧
    (w.updatePosition p).m_timeLabel.length = 19 ∧
    (MediaPlayer.updatePosition 3725000
      { MediaPlayer.freshWindow with
        m_player := { MediaPlayer.freshWindow.m_player with duration := 7384000 } }).m_timeLabel =
      "01:02:05 / 02:03:04" := by
  have ep : toInt32 p = p := toInt32_of_small p hp0 (by norm_num; omega)
  have ed : toInt32 w.m_player.duration = w.m_player.duration :=
    toInt32_of_small _ hd0 (by norm_num; omega)
  have hl : (w.updatePosition p).m_timeLabel =
      ((QTime.ofHMS 0 0 0).addMSecs p).toString ++ " / " ++
        ((QTime.ofHMS 0 0 0).addMSecs w.m_player.duration).toString := by
    simp only [MediaPlayer.updatePosition, ep, ed]
  refine ⟨?_, ?_, by decide⟩
  · rw [hl, QTime.toString_addMSecs p hp0 hp1, QTime.toString_addMSecs _ hd0 hd1]
  · rw [hl, String.length_append, String.length_append,
      QTime.toString_length _ (by simp [QTime.addMSecs, QTime.ofHMS, MSECS_PER_DAY]; omega)
        (by simp [QTime.addMSecs, QTime.ofHMS, MSECS_PER_DAY]; omega),
      QTime.toString_length _ (by simp [QTime.addMSecs, QTime.ofHMS, MSECS_PER_DAY]; omega)
        (by simp [QTime.addMSecs, QTime.ofHMS, MSECS_PER_DAY]; omega)]
    rfl

/-- Witness for C8: position 3725000 ms on a window whose engine reports a
duration of 7384000 ms. -/
theorem updatePosition_time_label_witness :
    (MediaPlayer.updatePosition 3725000
      { MediaPlayer.freshWindow with
        m_player := { MediaPlayer.freshWindow.m_player with duration := 7384000 } }).m_timeLabel =
      "01:02:05 / 02:03:04" :=
  (updatePosition_time_label 3725000
    { MediaPlayer.freshWindow with
      m_player := { MediaPlayer.freshWindow.m_player with duration := 7384000 } }
    (by decide) (by decide) (by decide) (by decide)).1.trans (by decide)

/-! ## Settings -/

namespace MediaPlayer

theorem updatePlayButton_persisted (w : MediaPlayer) :
    persistedWidgets (updatePlayButton w) = persistedWidgets w := by
  unfold updatePlayButton; split <;> rfl

theorem playbackStateChanged_persisted (st : PlaybackState) (w : MediaPlayer) :
    persistedWidgets (playbackStateChanged st w) = persistedWidgets w := by
  unfold playbackStateChanged; split
  · rfl
  · exact updatePlayButton_persisted w

theorem playerPlay_persisted (w : MediaPlayer) :
    persistedWidgets (playerPlay w) = persistedWidgets w := by
  unfold playerPlay; rw [playbackStateChanged_persisted]; rfl

theorem playerPause_persisted (w : MediaPlayer) :
    persistedWidgets (playerPause w) = persistedWidgets w := by
  unfold playerPause; rw [playbackStateChanged_persisted]; rfl

theorem playerStop_persisted (w : MediaPlayer) :
    persistedWidgets (playerStop w) = persistedWidgets w := by
  unfold playerStop; rw [playbackStateChanged_persisted]; rfl

theorem playFile_persisted (filePath : String) (w : MediaPlayer) :
    persistedWidgets (playFile filePath w) = persistedWidgets w := by
  unfold playFile
  show persistedWidgets (playerPlay _) = _
  rw [playerPlay_persisted]; rfl

theorem togglePlayPause_persisted (w : MediaPlayer) :
    persistedWidgets (togglePlayPause w) = persistedWidgets w := by
  unfold togglePlayPause; split
  · exact playerPause_persisted w
  · exact playerPlay_persisted w

theorem toggleMute_persisted (muted : Bool) (w : MediaPlayer) :
    persistedWidgets (toggleMute muted w) = persistedWidgets w := rfl

theorem volumeButtonSetChecked_persisted (c : Bool) (w : MediaPlayer) :
    persistedWidgets (volumeButtonSetChecked c w) = persistedWidgets w := by
  unfold volumeButtonSetChecked QToolButton.setChecked
  by_cases h : w.m_volumeButton.checked = c <;> simp [h, toggleMute, persistedWidgets]

theorem setVolume_persisted (volume : Int) (w : MediaPlayer) :
    persistedWidgets (setVolume volume w) = persistedWidgets w := by
  unfold setVolume; split <;> rw [volumeButtonSetChecked_persisted] <;> rfl

theorem toggleFullscreen_persisted (w : MediaPlayer) :
    persistedWidgets (toggleFullscreen w) = persistedWidgets w := by
  unfold toggleFullscreen; split <;> rfl

/-- Setting the volume slider touches, of the stored widgets, the slider only. -/
theorem volumeSliderSetValue_persisted (v : Int) (w : MediaPlayer) :
    persistedWidgets (volumeSliderSetValue v w) =
      (w.m_playlistWidget, (w.m_volumeSlider.setValue v).1, w.m_playbackRateBox,
        w.m_playlistAction, w.m_equalizerAction) := by
  unfold volumeSliderSetValue
  cases h : (w.m_volumeSlider.setValue v).2 with
  | none => simp only [h]; rfl
  | some x => simp only [h, setVolume_persisted]; rfl

/-- Choosing a rate touches, of the stored widgets, the rate selector only. -/
theorem rateBoxSetCurrentIndex_persisted (i : Int) (w : MediaPlayer) :
    persistedWidgets (rateBoxSetCurrentIndex i w) =
      (w.m_playlistWidget, w.m_volumeSlider, (w.m_playbackRateBox.setCurrentIndex i).1,
        w.m_playlistAction, w.m_equalizerAction) := by
  unfold rateBoxSetCurrentIndex
  cases h : (w.m_playbackRateBox.setCurrentIndex i).2 with
  | none => simp only [h]; rfl
  | some x => simp only [h]; rfl

/-- Checking the playlist action touches, of the stored widgets, that action only. -/
theorem playlistActionSetChecked_persisted (c : Bool) (w : MediaPlayer) :
    persistedWidgets (playlistActionSetChecked c w) =
      (w.m_playlistWidget, w.m_volumeSlider, w.m_playbackRateBox,
        (w.m_playlistAction.setChecked c).1, w.m_equalizerAction) := by
  unfold playlistActionSetChecked
  cases h : (w.m_playlistAction.setChecked c).2 with
  | none => simp only [h]; rfl
  | some x => simp only [h]; rfl

/-- Checking the equalizer action touches, of the stored widgets, that action only. -/
theorem equalizerActionSetChecked_persisted (c : Bool) (w : MediaPlayer) :
    persistedWidgets (equalizerActionSetChecked c w) =
      (w.m_playlistWidget, w.m_volumeSlider, w.m_playbackRateBox,
        w.m_playlistAction, (w.m_equalizerAction.setChecked c).1) := by
  unfold equalizerActionSetChecked
  cases h : (w.m_equalizerAction.setChecked c).2 with
  | none => simp only [h]; rfl
  | some x => simp only [h]; rfl

/-- Adding files touches, of the stored widgets, the rows of the playlist only. -/
theorem foldl_addToPlaylist_persisted (files : List String) :
    ∀ w : MediaPlayer,
      persistedWidgets (files.foldl (fun acc file => addToPlaylist file acc) w) =
        ({ items := w.m_playlistWidget.items ++
              files.map (fun f => { text := fileName f, userData := f }),
           currentRow := w.m_playlistWidget.currentRow },
          w.m_volumeSlider, w.m_playbackRateBox, w.m_playlistAction, w.m_equalizerAction) := by
  induction files with
  | nil => intro w; simp [persistedWidgets]
  | cons f rest ih =>
    intro w
    rw [List.foldl_cons, ih]
    simp [addToPlaylist, QListWidget.addItem]

/-- The stored widgets after `loadSettings`, widget by widget. -/
theorem loadSettings_persisted (settings : QSettings) (w : MediaPlayer) :
    persistedWidgets (loadSettings settings w) =
      ({ items := w.m_playlistWidget.items ++
            (settings.value "recentFiles" .invalid).toStringList.map
              (fun f => { text := fileName f, userData := f }),
         currentRow := w.m_playlistWidget.currentRow },
        (w.m_volumeSlider.setValue (settings.value "volume" (.int 50)).toInt).1,
        (w.m_playbackRateBox.setCurrentIndex (settings.value "playbackRate" (.int 2)).toInt).1,
        (w.m_playlistAction.setChecked (settings.value "showPlaylist" (.bool true)).toBool).1,
        (w.m_equalizerAction.setChecked
          (settings.value "showEqualizer" (.bool false)).toBool).1) := by
  have h1 := volumeSliderSetValue_persisted (settings.value "volume" (.int 50)).toInt w
  generalize hw1 : volumeSliderSetValue (settings.value "volume" (.int 50)).toInt w = w1 at h1
  have h2 := rateBoxSetCurrentIndex_persisted (settings.value "playbackRate" (.int 2)).toInt w1
  generalize hw2 :
    rateBoxSetCurrentIndex (settings.value "playbackRate" (.int 2)).toInt w1 = w2 at h2
  have h3 := foldl_addToPlaylist_persisted
    (settings.value "recentFiles" .invalid).toStringList w2
  generalize hw3 : (settings.value "recentFiles" .invalid).toStringList.foldl
    (fun acc file => addToPlaylist file acc) w2 = w3 at h3
  have h4 := playlistActionSetChecked_persisted
    (settings.value "showPlaylist" (.bool true)).toBool w3
  generalize hw4 :
    playlistActionSetChecked (settings.value "showPlaylist" (.bool true)).toBool w3 = w4 at h4
  have h5 := equalizerActionSetChecked_persisted
    (settings.value "showEqualizer" (.bool false)).toBool w4
  simp only [persistedWidgets, Prod.mk.injEq] at h1 h2 h3 h4
  obtain ⟨a1, b1, c1, d1, e1⟩ := h1
  obtain ⟨a2, b2, c2, d2, e2⟩ := h2
  obtain ⟨a3, b3, c3, d3, e3⟩ := h3
  obtain ⟨a4, b4, c4, d4, e4⟩ := h4
  have hl : loadSettings settings w =
      equalizerActionSetChecked (settings.value "showEqualizer" (.bool false)).toBool w4 := by
    rw [← hw4, ← hw3, ← hw2, ← hw1]
    rfl
  rw [hl, h5, a4, b4, c4, d4, e4, a3, b3, c3, d3, e3, a2, b2, c2, d2, e2, a1, b1, c1, d1, e1]

end MediaPlayer

/-- A key that is not stored yields the default handed to `value`. -/
theorem QSettings.value_of_not_contains (key : String) (d : QVariant) (s : QSettings)
    (h : s.contains key = false) : s.value key d = d := by
  unfold QSettings.contains at h
  unfold QSettings.value
  cases hl : s.entries.lookup key with
  | none => rfl
  | some v => rw [hl] at h; simp at h

/-! ### What is stored is what is read back -/

theorem lookup_filter_ne (k k1 : String) (h : k ≠ k1) (l : List (String × QVariant)) :
    (l.filter (fun e => e.1 != k1)).lookup k = l.lookup k := by
  induction l with
  | nil => rfl
  | cons e rest ih =>
    obtain ⟨a, b⟩ := e
    by_cases ha : a = k1
    · subst ha
      have hk : (k == a) = false := by simp [h]
      simp [List.filter, List.lookup, hk, ih]
    · have hne : (a != k1) = true := by simp [ha]
      simp only [List.filter, hne, List.lookup]
      cases k == a <;> simp [ih]

/-- Reading a key after `setValue`: the new value under the same key, the
old content under any other key. -/
theorem QSettings.value_setValue (k k1 : String) (v d : QVariant) (s : QSettings) :
    (s.setValue k1 v).value k d = if k = k1 then v else s.value k d := by
  unfold QSettings.setValue QSettings.value
  by_cases h : k = k1
  · simp [h, List.lookup]
  · have hk : (k == k1) = false := by simp [h]
    simp [h, List.lookup, hk, lookup_filter_ne k k1 h]

/-- What `loadSettings` reads from the backend written by `saveSettings`. -/
theorem saveSettings_values (w : MediaPlayer) (store : QSettings) :
    ((w.saveSettings store).value "volume" (.int 50)).toInt = w.m_volumeSlider.value ∧
    ((w.saveSettings store).value "playbackRate" (.int 2)).toInt =
      w.m_playbackRateBox.currentIndex ∧
    ((w.saveSettings store).value "recentFiles" .invalid).toStringList = w.recentFiles ∧
    ((w.saveSettings store).value "showPlaylist" (.bool true)).toBool =
      w.m_playlistAction.checked ∧
    ((w.saveSettings store).value "showEqualizer" (.bool false)).toBool =
      w.m_equalizerAction.checked := by
  unfold MediaPlayer.saveSettings
  simp only [QSettings.value_setValue]
  simp [QVariant.toInt, QVariant.toBool, QVariant.toStringList]

/-! ### The stored widgets stay within their ranges -/

theorem QSlider.setValue_valid (v : Int) (sl : QSlider) (h : VolumeSliderValid sl) :
    VolumeSliderValid (sl.setValue v).1 := by
  obtain ⟨h1, h2, h3, h4⟩ := h
  unfold QSlider.setValue
  by_cases hc : max sl.minimum (min v sl.maximum) = sl.value
  · simp only [hc, if_true]; exact ⟨h1, h2, h3, h4⟩
  · simp only [hc, if_false]
    refine ⟨h1, h2, ?_, ?_⟩
    · simp only [h1]; exact le_max_left _ _
    · simp only [h1, h2]; exact max_le (by norm_num) (min_le_right _ _)

/-- On a slider with range 0..100 a value within the range is taken as is. -/
theorem QSlider.setValue_value (v : Int) (sl : QSlider) (h1 : sl.minimum = 0)
    (h2 : sl.maximum = 100) (h3 : 0 ≤ v) (h4 : v ≤ 100) : (sl.setValue v).1.value = v := by
  unfold QSlider.setValue
  have hc : max sl.minimum (min v sl.maximum) = v := by
    rw [h1, h2, min_eq_left h4, max_eq_right h3]
  rw [hc]
  by_cases hv : v = sl.value
  · rw [if_pos hv]; exact hv.symm
  · rw [if_neg hv]

theorem QComboBox.setCurrentIndex_valid (i : Int) (cb : QComboBox) (h : RateBoxValid cb) :
    RateBoxValid (cb.setCurrentIndex i).1 := by
  obtain ⟨h1, h2, h3⟩ := h
  have hlen : (cb.items.length : Int) = 6 := by rw [h1]; rfl
  unfold QComboBox.setCurrentIndex
  simp only [hlen]
  by_cases hi : 0 ≤ i ∧ i < 6
  · simp only [hi, and_self, if_true]
    by_cases hc : i = cb.currentIndex
    · simp only [hc, if_true]; exact ⟨h1, h2, h3⟩
    · simp only [hc, if_false]; exact ⟨h1, by show (-1 : Int) ≤ i; omega, hi.2⟩
  · simp only [hi, if_false]
    by_cases hc : (-1 : Int) = cb.currentIndex
    · simp only [hc, if_true]; exact ⟨h1, h2, h3⟩
    · simp only [hc, if_false]
      exact ⟨h1, by show (-1 : Int) ≤ -1; omega, by show (-1 : Int) < 6; omega⟩

/-- On the selector with the six rate entries an index from -1 to 5 is taken
as is. -/
theorem QComboBox.setCurrentIndex_index (i : Int) (cb : QComboBox)
    (h1 : cb.items = MediaPlayer.rateLabels) (h2 : -1 ≤ i) (h3 : i < 6) :
    (cb.setCurrentIndex i).1.currentIndex = i := by
  have hlen : (cb.items.length : Int) = 6 := by rw [h1]; rfl
  unfold QComboBox.setCurrentIndex
  simp only [hlen]
  by_cases hi : 0 ≤ i ∧ i < 6
  · simp only [hi, and_self, if_true]
    by_cases hc : i = cb.currentIndex
    · simp only [hc, if_true]
    · simp only [hc, if_false]
  · have hm : i = -1 := by omega
    simp only [hi, if_false]
    by_cases hc : (-1 : Int) = cb.currentIndex
    · simp only [hc, if_true]; omega
    · simp only [hc, if_false]; omega

/-- The validity of the stored widgets is a matter of those widgets alone. -/
theorem WidgetsValid.of_persisted_eq (w w1 : MediaPlayer)
    (h : persistedWidgets w1 = persistedWidgets w) (hv : WidgetsValid w) : WidgetsValid w1 := by
  simp only [persistedWidgets, Prod.mk.injEq] at h
  obtain ⟨hp, hs, hb, _, _⟩ := h
  unfold WidgetsValid CursorValid at *
  rw [hp, hs, hb]
  exact hv

namespace MediaPlayer

/-- A successful `playSelectedItem` leaves the stored widgets alone. -/
theorem playSelectedItem_persisted (item : Option QListWidgetItem) (w w1 : MediaPlayer)
    (h : playSelectedItem item w = some w1) : persistedWidgets w1 = persistedWidgets w := by
  cases item with
  | none => simp [playSelectedItem] at h
  | some it =>
    simp only [playSelectedItem, Option.some.injEq] at h
    rw [← h, playFile_persisted]

/-- Apart from the cursor, `nextTrack` leaves the stored widgets alone. -/
theorem nextTrack_frame (w w1 : MediaPlayer) (h : nextTrack w = some w1) :
    w1.m_volumeSlider = w.m_volumeSlider ∧ w1.m_playbackRateBox = w.m_playbackRateBox := by
  unfold nextTrack at h
  simp only at h
  split at h
  · have hp := playSelectedItem_persisted _ _ _ h
    simp only [persistedWidgets, Prod.mk.injEq] at hp
    exact ⟨hp.2.1, hp.2.2.1⟩
  · simp only [Option.some.injEq] at h
    rw [← h]; exact ⟨rfl, rfl⟩

/-- Apart from the cursor, `previousTrack` leaves the stored widgets alone. -/
theorem previousTrack_frame (w w1 : MediaPlayer) (h : previousTrack w = some w1) :
    w1.m_volumeSlider = w.m_volumeSlider ∧ w1.m_playbackRateBox = w.m_playbackRateBox := by
  unfold previousTrack at h
  simp only at h
  split at h
  · have hp := playSelectedItem_persisted _ _ _ h
    simp only [persistedWidgets, Prod.mk.injEq] at hp
    exact ⟨hp.2.1, hp.2.2.1⟩
  · simp only [Option.some.injEq] at h
    rw [← h]; exact ⟨rfl, rfl⟩

theorem nextTrack_widgetsValid (w : MediaPlayer) (h : WidgetsValid w) :
    ∃ w1, nextTrack w = some w1 ∧ WidgetsValid w1 := by
  obtain ⟨w1, h1, hc⟩ := nextTrack_valid w h.1
  obtain ⟨hs, hb⟩ := nextTrack_frame w w1 h1
  exact ⟨w1, h1, hc, by rw [hs]; exact h.2.1, by rw [hb]; exact h.2.2⟩

theorem previousTrack_widgetsValid (w : MediaPlayer) (h : WidgetsValid w) :
    ∃ w1, previousTrack w = some w1 ∧ WidgetsValid w1 := by
  obtain ⟨w1, h1, hc⟩ := previousTrack_valid w h.1
  obtain ⟨hs, hb⟩ := previousTrack_frame w w1 h1
  exact ⟨w1, h1, hc, by rw [hs]; exact h.2.1, by rw [hb]; exact h.2.2⟩

theorem addToPlaylist_widgetsValid (filePath : String) (w : MediaPlayer)
    (h : WidgetsValid w) : WidgetsValid (addToPlaylist filePath w) :=
  ⟨addToPlaylist_valid filePath w h.1, h.2.1, h.2.2⟩

theorem foldl_addToPlaylist_widgetsValid (files : List String) :
    ∀ w : MediaPlayer, WidgetsValid w →
      WidgetsValid (files.foldl (fun acc file => addToPlaylist file acc) w) := by
  induction files with
  | nil => intro w h; exact h
  | cons f rest ih => intro w h; exact ih _ (addToPlaylist_widgetsValid f w h)

theorem setCurrentRow_widgetsValid (row : Int) (w : MediaPlayer) (h : WidgetsValid w) :
    WidgetsValid { w with m_playlistWidget := w.m_playlistWidget.setCurrentRow row } := by
  refine ⟨?_, h.2.1, h.2.2⟩
  unfold CursorValid QListWidget.setCurrentRow
  by_cases hr : 0 ≤ row ∧ row < w.m_playlistWidget.count
  · right
    show 0 ≤ (if 0 ≤ row ∧ row < w.m_playlistWidget.count then row else -1) ∧
      (if 0 ≤ row ∧ row < w.m_playlistWidget.count then row else -1) < w.m_playlistWidget.count
    rw [if_pos hr]; exact hr
  · left
    show (if 0 ≤ row ∧ row < w.m_playlistWidget.count then row else -1) = -1
    rw [if_neg hr]

theorem volumeSliderSetValue_widgetsValid (v : Int) (w : MediaPlayer) (h : WidgetsValid w) :
    WidgetsValid (volumeSliderSetValue v w) := by
  have hp := volumeSliderSetValue_persisted v w
  simp only [persistedWidgets, Prod.mk.injEq] at hp
  obtain ⟨h1, h2, h3, _, _⟩ := hp
  unfold WidgetsValid CursorValid at *
  rw [h1, h2, h3]
  exact ⟨h.1, QSlider.setValue_valid v _ h.2.1, h.2.2⟩

theorem rateBoxSetCurrentIndex_widgetsValid (i : Int) (w : MediaPlayer) (h : WidgetsValid w) :
    WidgetsValid (rateBoxSetCurrentIndex i w) := by
  have hp := rateBoxSetCurrentIndex_persisted i w
  simp only [persistedWidgets, Prod.mk.injEq] at hp
  obtain ⟨h1, h2, h3, _, _⟩ := hp
  unfold WidgetsValid CursorValid at *
  rw [h1, h2, h3]
  exact ⟨h.1, h.2.1, QComboBox.setCurrentIndex_valid i _ h.2.2⟩

theorem playlistActionSetChecked_widgetsValid (c : Bool) (w : MediaPlayer)
    (h : WidgetsValid w) : WidgetsValid (playlistActionSetChecked c w) := by
  have hp := playlistActionSetChecked_persisted c w
  simp only [persistedWidgets, Prod.mk.injEq] at hp
  obtain ⟨h1, h2, h3, _, _⟩ := hp
  unfold WidgetsValid CursorValid at *
  rw [h1, h2, h3]
  exact h

theorem equalizerActionSetChecked_widgetsValid (c : Bool) (w : MediaPlayer)
    (h : WidgetsValid w) : WidgetsValid (equalizerActionSetChecked c w) := by
  have hp := equalizerActionSetChecked_persisted c w
  simp only [persistedWidgets, Prod.mk.injEq] at hp
  obtain ⟨h1, h2, h3, _, _⟩ := hp
  unfold WidgetsValid CursorValid at *
  rw [h1, h2, h3]
  exact h

theorem playFile_widgetsValid (filePath : String) (w : MediaPlayer) (h : WidgetsValid w) :
    WidgetsValid (playFile filePath w) :=
  WidgetsValid.of_persisted_eq w _ (playFile_persisted filePath w) h

theorem freshWindow_widgetsValid : WidgetsValid freshWindow := by
  refine ⟨Or.inl rfl, ⟨rfl, rfl, ?_, ?_⟩, ⟨rfl, ?_, ?_⟩⟩ <;> decide

/-- The constructor yields valid widgets whatever the backend holds. -/
theorem construct_widgetsValid (settings : QSettings) : WidgetsValid (construct settings) := by
  unfold construct loadSettings
  exact equalizerActionSetChecked_widgetsValid _ _
    (playlistActionSetChecked_widgetsValid _ _
      (foldl_addToPlaylist_widgetsValid _ _
        (rateBoxSetCurrentIndex_widgetsValid _ _
          (volumeSliderSetValue_widgetsValid _ _ freshWindow_widgetsValid))))

end MediaPlayer

/-- Every event is handled without failure and keeps the stored widgets valid. -/
theorem Event.apply_widgetsValid (e : Event) (w : MediaPlayer) (h : WidgetsValid w) :
    ∃ w1, e.apply w = some w1 ∧ WidgetsValid w1 := by
  cases e with
  | commandLineArgument filePath =>
    exact ⟨_, rfl, MediaPlayer.playFile_widgetsValid _ _
      (MediaPlayer.addToPlaylist_widgetsValid _ _ h)⟩
  | openFile files =>
    refine ⟨_, rfl, ?_⟩
    cases files with
    | nil => exact h
    | cons first rest =>
      exact MediaPlayer.playFile_widgetsValid _ _
        (MediaPlayer.foldl_addToPlaylist_widgetsValid _ _ h)
  | openUrl ok url =>
    refine ⟨_, rfl, ?_⟩
    unfold MediaPlayer.openUrl
    split
    · exact MediaPlayer.playFile_widgetsValid _ _
        (MediaPlayer.addToPlaylist_widgetsValid _ _ h)
    · exact h
  | rowSelected row => exact ⟨_, rfl, MediaPlayer.setCurrentRow_widgetsValid row w h⟩
  | itemDoubleClicked row =>
    cases hit : w.m_playlistWidget.items.get? row with
    | none => exact ⟨w, by simp only [Event.apply, hit], h⟩
    | some it =>
      refine ⟨MediaPlayer.playFile it.userData
        { w with m_playlistWidget := w.m_playlistWidget.setCurrentRow row }, ?_, ?_⟩
      · simp only [Event.apply, hit, MediaPlayer.playSelectedItem]
      · exact MediaPlayer.playFile_widgetsValid _ _
          (MediaPlayer.setCurrentRow_widgetsValid row w h)
  | playClicked =>
    exact ⟨_, rfl, WidgetsValid.of_persisted_eq w _ (MediaPlayer.togglePlayPause_persisted w) h⟩
  | stopClicked =>
    exact ⟨_, rfl, WidgetsValid.of_persisted_eq w _ (MediaPlayer.playerStop_persisted w) h⟩
  | previousClicked => exact MediaPlayer.previousTrack_widgetsValid w h
  | nextClicked => exact MediaPlayer.nextTrack_widgetsValid w h
  | sliderMoved position => exact ⟨_, rfl, WidgetsValid.of_persisted_eq w _ rfl h⟩
  | volumeSliderMoved value =>
    exact ⟨_, rfl, MediaPlayer.volumeSliderSetValue_widgetsValid _ w h⟩
  | volumeUp => exact ⟨_, rfl, MediaPlayer.volumeSliderSetValue_widgetsValid _ w h⟩
  | volumeDown => exact ⟨_, rfl, MediaPlayer.volumeSliderSetValue_widgetsValid _ w h⟩
  | volumeButtonToggle =>
    exact ⟨_, rfl, WidgetsValid.of_persisted_eq w _
      (MediaPlayer.volumeButtonSetChecked_persisted _ w) h⟩
  | fullscreenClicked =>
    exact ⟨_, rfl, WidgetsValid.of_persisted_eq w _ (MediaPlayer.toggleFullscreen_persisted w) h⟩
  | escapePressed =>
    refine ⟨_, rfl, ?_⟩
    split
    · exact WidgetsValid.of_persisted_eq w _ rfl h
    · exact h
  | rateChosen index => exact ⟨_, rfl, MediaPlayer.rateBoxSetCurrentIndex_widgetsValid _ w h⟩
  | playlistActionTriggered =>
    exact ⟨_, rfl, MediaPlayer.playlistActionSetChecked_widgetsValid _ w h⟩
  | equalizerActionTriggered =>
    exact ⟨_, rfl, MediaPlayer.equalizerActionSetChecked_widgetsValid _ w h⟩
  | seekBackward => exact ⟨_, rfl, WidgetsValid.of_persisted_eq w _ rfl h⟩
  | seekForward => exact ⟨_, rfl, WidgetsValid.of_persisted_eq w _ rfl h⟩
  | positionChanged position => exact ⟨_, rfl, WidgetsValid.of_persisted_eq w _ rfl h⟩
  | durationChanged duration => exact ⟨_, rfl, WidgetsValid.of_persisted_eq w _ rfl h⟩
  | playbackStateChanged state =>
    exact ⟨_, rfl, WidgetsValid.of_persisted_eq w _
      (MediaPlayer.playbackStateChanged_persisted _ _) h⟩
  | mediaStatusChanged status =>
    cases status
    case EndOfMedia => exact MediaPlayer.nextTrack_widgetsValid w h
    all_goals exact ⟨w, rfl, h⟩
  | errorOccurred error errorString => exact ⟨_, rfl, WidgetsValid.of_persisted_eq w _ rfl h⟩

/-- Every run is handled without failure and keeps the stored widgets valid. -/
theorem run_valid (es : List Event) :
    ∀ w : MediaPlayer, WidgetsValid w → ∃ w1, run es w = some w1 ∧ WidgetsValid w1 := by
  induction es with
  | nil => intro w h; exact ⟨w, rfl, h⟩
  | cons e rest ih =>
    intro w h
    obtain ⟨w1, hw1, hv1⟩ := e.apply_widgetsValid w h
    obtain ⟨w2, hw2, hv2⟩ := ih w1 hv1
    exact ⟨w2, by simp [run, hw1, hw2], hv2⟩

/-- The round trip on a window with valid widgets. -/
theorem saveSettings_construct (S : MediaPlayer) (store : QSettings) (h : WidgetsValid S) :
    (MediaPlayer.construct (S.saveSettings store)).m_volumeSlider.value =
      S.m_volumeSlider.value ∧
    (MediaPlayer.construct (S.saveSettings store)).m_playbackRateBox.currentIndex =
      S.m_playbackRateBox.currentIndex ∧
    (MediaPlayer.construct (S.saveSettings store)).m_playlistAction.checked =
      S.m_playlistAction.checked ∧
    (MediaPlayer.construct (S.saveSettings store)).m_equalizerAction.checked =
      S.m_equalizerAction.checked ∧
    (MediaPlayer.construct (S.saveSettings store)).recentFiles = S.recentFiles := by
  have hl := MediaPlayer.loadSettings_persisted (S.saveSettings store) MediaPlayer.freshWindow
  obtain ⟨v1, v2, v3, v4, v5⟩ := saveSettings_values S store
  rw [v1, v2, v3, v4, v5] at hl
  simp only [persistedWidgets, Prod.mk.injEq] at hl
  obtain ⟨hp, hs, hb, ha, he⟩ := hl
  obtain ⟨_, ⟨_, _, s3, s4⟩, ⟨_, b2, b3⟩⟩ := h
  refine ⟨?_, ?_, ?_, ?_, ?_⟩
  · rw [MediaPlayer.construct, hs]
    exact QSlider.setValue_value _ _ rfl rfl s3 s4
  · rw [MediaPlayer.construct, hb]
    exact QComboBox.setCurrentIndex_index _ _ rfl b2 b3
  · rw [MediaPlayer.construct, ha]
    unfold QAction.setChecked
    split <;> simp_all
  · rw [MediaPlayer.construct, he]
    unfold QAction.setChecked
    split <;> simp_all
  · unfold MediaPlayer.recentFiles
    rw [MediaPlayer.construct, hp]
    simp [MediaPlayer.freshWindow, MediaPlayer.setupPlayer, MediaPlayer.setupUi,
      MediaPlayer.recentFiles, Function.comp_def]

/-- C9: for every window state `S` the program can reach (constructed over any
backend content, then any sequence of user and engine events), `saveSettings`
followed by the construction of a new window over the saved backend
reproduces the volume, the rate index, the two view flags and the playlist
references in order, duplicates included. -/
theorem settings_round_trip (initial store : QSettings) (es : List Event) :
    ∃ S, run es (MediaPlayer.construct initial) = some S ∧
      (MediaPlayer.construct (S.saveSettings store)).m_volumeSlider.value =
        S.m_volumeSlider.value ∧
      (MediaPlayer.construct (S.saveSettings store)).m_playbackRateBox.currentIndex =
        S.m_playbackRateBox.currentIndex ∧
      (MediaPlayer.construct (S.saveSettings store)).m_playlistAction.checked =
        S.m_playlistAction.checked ∧
      (MediaPlayer.construct (S.saveSettings store)).m_equalizerAction.checked =
        S.m_equalizerAction.checked ∧
      (MediaPlayer.construct (S.saveSettings store)).recentFiles = S.recentFiles := by
  obtain ⟨S, hS, hv⟩ := run_valid es _ (MediaPlayer.construct_widgetsValid initial)
  exact ⟨S, hS, saveSettings_construct S store hv⟩

/-! ### Defaults -/

/-- The checked state after `QAction::setChecked(c)` is `c`. -/
theorem QAction.setChecked_checked (c : Bool) (a : QAction) : (a.setChecked c).1.checked = c := by
  unfold QAction.setChecked
  by_cases h : a.checked = c
  · rw [if_pos h]; exact h
  · rw [if_neg h]

/-- The example window `windowAt` has valid widgets. -/
theorem windowAt_widgetsValid (volume rate : Int) (showPlaylist showEqualizer : Bool) :
    WidgetsValid (windowAt volume rate showPlaylist showEqualizer) :=
  MediaPlayer.equalizerActionSetChecked_widgetsValid _ _
    (MediaPlayer.playlistActionSetChecked_widgetsValid _ _
      (MediaPlayer.rateBoxSetCurrentIndex_widgetsValid _ _
        (MediaPlayer.volumeSliderSetValue_widgetsValid _ _
          MediaPlayer.freshWindow_widgetsValid)))

/-- C10: `loadSettings` run on any window (volume slider with range 0..100,
rate selector with the six entries), whatever its widgets showed before: each
key that is missing from the backend gives its own default, whatever the other
keys hold: volume 50, rate index 2 (the entry "1.0x"), playlist action
checked, equalizer action unchecked, no row added to the playlist.  With a
backend that holds none of the keys all five defaults apply at once, and the
window built by the constructor has an empty playlist. -/
theorem loadSettings_defaults (settings : QSettings) (w : MediaPlayer) (hw : WidgetsValid w) :
    ((settings.contains "volume" = false →
        (w.loadSettings settings).m_volumeSlider.value = 50) ∧
      (settings.contains "playbackRate" = false →
        (w.loadSettings settings).m_playbackRateBox.currentIndex = 2 ∧
        (w.loadSettings settings).m_playbackRateBox.currentText = "1.0x") ∧
      (settings.contains "recentFiles" = false →
        (w.loadSettings settings).m_playlistWidget.items = w.m_playlistWidget.items) ∧
      (settings.contains "showPlaylist" = false →
        (w.loadSettings settings).m_playlistAction.checked = true) ∧
      (settings.contains "showEqualizer" = false →
        (w.loadSettings settings).m_equalizerAction.checked = false)) ∧
    ((w.loadSettings ⟨[]⟩).m_volumeSlider.value = 50 ∧
      (w.loadSettings ⟨[]⟩).m_playbackRateBox.currentIndex = 2 ∧
      (w.loadSettings ⟨[]⟩).m_playbackRateBox.currentText = "1.0x" ∧
      (w.loadSettings ⟨[]⟩).m_playlistAction.checked = true ∧
      (w.loadSettings ⟨[]⟩).m_equalizerAction.checked = false ∧
      (w.loadSettings ⟨[]⟩).m_playlistWidget.items = w.m_playlistWidget.items) ∧
    (MediaPlayer.construct ⟨[]⟩).m_playlistWidget.items = [] := by
  have key : ∀ (st : QSettings) (x : MediaPlayer), WidgetsValid x →
      (st.contains "volume" = false →
        (x.loadSettings st).m_volumeSlider.value = 50) ∧
      (st.contains "playbackRate" = false →
        (x.loadSettings st).m_playbackRateBox.currentIndex = 2 ∧
        (x.loadSettings st).m_playbackRateBox.currentText = "1.0x") ∧
      (st.contains "recentFiles" = false →
        (x.loadSettings st).m_playlistWidget.items = x.m_playlistWidget.items) ∧
      (st.contains "showPlaylist" = false →
        (x.loadSettings st).m_playlistAction.checked = true) ∧
      (st.contains "showEqualizer" = false →
        (x.loadSettings st).m_equalizerAction.checked = false) := by
    intro st x hx
    have h := MediaPlayer.loadSettings_persisted st x
    simp only [persistedWidgets, Prod.mk.injEq] at h
    obtain ⟨hp, hv, hr, ha, he⟩ := h
    obtain ⟨_, ⟨s1, s2, _, _⟩, hb⟩ := hx
    refine ⟨fun hk => ?_, fun hk => ?_, fun hk => ?_, fun hk => ?_, fun hk => ?_⟩
    · rw [hv, QSettings.value_of_not_contains _ _ _ hk]
      exact QSlider.setValue_value 50 _ s1 s2 (by decide) (by decide)
    · rw [hr, QSettings.value_of_not_contains _ _ _ hk]
      have hi : (x.m_playbackRateBox.setCurrentIndex 2).1.currentIndex = 2 :=
        QComboBox.setCurrentIndex_index 2 _ hb.1 (by decide) (by decide)
      have hitems := (QComboBox.setCurrentIndex_valid 2 _ hb).1
      refine ⟨hi, ?_⟩
      show QComboBox.itemText (x.m_playbackRateBox.setCurrentIndex 2).1.currentIndex
        (x.m_playbackRateBox.setCurrentIndex 2).1 = "1.0x"
      unfold QComboBox.itemText
      rw [hi, hitems]
      decide
    · rw [hp, QSettings.value_of_not_contains _ _ _ hk]
      simp [QVariant.toStringList]
    · rw [ha, QSettings.value_of_not_contains _ _ _ hk]
      exact QAction.setChecked_checked _ _
    · rw [he, QSettings.value_of_not_contains _ _ _ hk]
      exact QAction.setChecked_checked _ _
  obtain ⟨k1, k2, k3, k4, k5⟩ := key ⟨[]⟩ w hw
  obtain ⟨_, _, c3, _, _⟩ := key ⟨[]⟩ MediaPlayer.freshWindow MediaPlayer.freshWindow_widgetsValid
  exact ⟨key settings w hw, ⟨k1 rfl, (k2 rfl).1, (k2 rfl).2, k4 rfl, k5 rfl, k3 rfl⟩, c3 rfl⟩

/-- Witness for C10: a window showing volume 80, rate index 4 ("1.5x"), the
playlist action unchecked and the equalizer action checked.  Loading a
backend that stores the volume and the equalizer flag only resets the rate
index to 2 and checks the playlist action; loading a backend without any key
resets all four widgets. -/
theorem loadSettings_defaults_witness :
    ((windowAt 80 4 false true).m_volumeSlider.value = 80 ∧
      (windowAt 80 4 false true).m_playbackRateBox.currentIndex = 4 ∧
      (windowAt 80 4 false true).m_playlistAction.checked = false ∧
      (windowAt 80 4 false true).m_equalizerAction.checked = true) ∧
    (((windowAt 80 4 false true).loadSettings
        ⟨[("volume", .int 30), ("showEqualizer", .bool true)]⟩).m_playbackRateBox.currentIndex
        = 2 ∧
      ((windowAt 80 4 false true).loadSettings
        ⟨[("volume", .int 30), ("showEqualizer", .bool true)]⟩).m_playlistAction.checked
        = true) ∧
    (((windowAt 80 4 false true).loadSettings ⟨[]⟩).m_volumeSlider.value = 50 ∧
      ((windowAt 80 4 false true).loadSettings ⟨[]⟩).m_playbackRateBox.currentIndex = 2 ∧
      ((windowAt 80 4 false true).loadSettings ⟨[]⟩).m_playbackRateBox.currentText = "1.0x" ∧
      ((windowAt 80 4 false true).loadSettings ⟨[]⟩).m_playlistAction.checked = true ∧
      ((windowAt 80 4 false true).loadSettings ⟨[]⟩).m_equalizerAction.checked = false ∧
      ((windowAt 80 4 false true).loadSettings ⟨[]⟩).m_playlistWidget.items =
        (windowAt 80 4 false true).m_playlistWidget.items) :=
  ⟨⟨by decide, by decide, by decide, by decide⟩,
   ⟨((loadSettings_defaults ⟨[("volume", .int 30), ("showEqualizer", .bool true)]⟩
        (windowAt 80 4 false true) (windowAt_widgetsValid 80 4 false true)).1.2.1
        (by decide)).1,
    (loadSettings_defaults ⟨[("volume", .int 30), ("showEqualizer", .bool true)]⟩
        (windowAt 80 4 false true) (windowAt_widgetsValid 80 4 false true)).1.2.2.2.1
        (by decide)⟩,
   (loadSettings_defaults ⟨[]⟩ (windowAt 80 4 false true)
      (windowAt_widgetsValid 80 4 false true)).2.1⟩

/-! ## End of media -/

/-- C11: `handleMediaStatus(EndOfMedia)` is `nextTrack` and nothing else, and
every other media status returns the window as it was; on the playlist A, B,
C with the cursor on row 2, `EndOfMedia` returns the window as it was: the
cursor stays on C and the engine receives no request (no `setSource`, no
`play`). -/
theorem handleMediaStatus_endOfMedia (w : MediaPlayer) (status : MediaStatus) :
    w.handleMediaStatus .EndOfMedia = w.nextTrack ∧
    (status ≠ .EndOfMedia → w.handleMediaStatus status = some w) ∧
    (windowWith ["A", "B", "C"] 2).handleMediaStatus .EndOfMedia =
      some (windowWith ["A", "B", "C"] 2) ∧
    (windowWith ["A", "B", "C"] 2).m_playlistWidget.currentRow = 2 ∧
    (windowWith ["A", "B", "C"] 2).m_playlistWidget.currentItem =
      some { text := "C", userData := "C" } := by
  refine ⟨rfl, ?_, ?_, by decide, by decide⟩
  · intro h
    cases status <;> first | rfl | exact absurd rfl h
  · show (windowWith ["A", "B", "C"] 2).nextTrack = _
    have hr : (windowWith ["A", "B", "C"] 2).m_playlistWidget.currentRow =
        (windowWith ["A", "B", "C"] 2).m_playlistWidget.count - 1 := by decide
    simp [MediaPlayer.nextTrack, hr]

/-- Witness for C11: the `LoadedMedia` status on the playlist A, B, C with the
cursor on row 1 changes nothing. -/
theorem handleMediaStatus_endOfMedia_witness :
    (windowWith ["A", "B", "C"] 1).handleMediaStatus .LoadedMedia =
      some (windowWith ["A", "B", "C"] 1) :=
  (handleMediaStatus_endOfMedia (windowWith ["A", "B", "C"] 1) .LoadedMedia).2.1 (by decide)

/-! ## Playback rate -/

/-- The text before the first `x` of each rate label, and its decimal value. -/
theorem toDouble_rateLabels :
    (left (indexOf 'x' "0.5x") "0.5x" = "0.5" ∧ toDouble "0.5" = 1 / 2) ∧
    (left (indexOf 'x' "0.75x") "0.75x" = "0.75" ∧ toDouble "0.75" = 3 / 4) ∧
    (left (indexOf 'x' "1.0x") "1.0x" = "1.0" ∧ toDouble "1.0" = 1) ∧
    (left (indexOf 'x' "1.25x") "1.25x" = "1.25" ∧ toDouble "1.25" = 5 / 4) ∧
    (left (indexOf 'x' "1.5x") "1.5x" = "1.5" ∧ toDouble "1.5" = 3 / 2) ∧
    (left (indexOf 'x' "2.0x") "2.0x" = "2.0" ∧ toDouble "2.0" = 2) := by
  refine ⟨⟨by decide, ?_⟩, ⟨by decide, ?_⟩, ⟨by decide, ?_⟩, ⟨by decide, ?_⟩,
    ⟨by decide, ?_⟩, ⟨by decide, ?_⟩⟩ <;>
  · simp [toDouble, digitsValue, Char.isDigit]
    try norm_num

/-- The engine after `setPlaybackRate(rate)`. -/
theorem MediaPlayer.setPlaybackRate_player (rate : String) (w : MediaPlayer) :
    (w.setPlaybackRate rate).m_player =
      w.m_player.setPlaybackRate (toDouble (left (indexOf 'x' rate) rate)) := rfl

/-- C12: the rate menu holds the six labels "0.5x", "0.75x", "1.0x", "1.25x",
"1.5x", "2.0x", and for each of them `setPlaybackRate` hands the engine exactly
the number written before the `x` (1/2, 3/4, 1, 5/4, 3/2 and 2) in one
`setPlaybackRate` request. -/
theorem setPlaybackRate_labels (w : MediaPlayer) :
    MediaPlayer.rateLabels = ["0.5x", "0.75x", "1.0x", "1.25x", "1.5x", "2.0x"] ∧
    ((w.setPlaybackRate "0.5x").m_player.playbackRate = 1 / 2 ∧
      (w.setPlaybackRate "0.5x").m_player.calls =
        w.m_player.calls ++ [.setPlaybackRate (1 / 2)]) ∧
    ((w.setPlaybackRate "0.75x").m_player.playbackRate = 3 / 4 ∧
      (w.setPlaybackRate "0.75x").m_player.calls =
        w.m_player.calls ++ [.setPlaybackRate (3 / 4)]) ∧
    ((w.setPlaybackRate "1.0x").m_player.playbackRate = 1 ∧
      (w.setPlaybackRate "1.0x").m_player.calls =
        w.m_player.calls ++ [.setPlaybackRate 1]) ∧
    ((w.setPlaybackRate "1.25x").m_player.playbackRate = 5 / 4 ∧
      (w.setPlaybackRate "1.25x").m_player.calls =
        w.m_player.calls ++ [.setPlaybackRate (5 / 4)]) ∧
    ((w.setPlaybackRate "1.5x").m_player.playbackRate = 3 / 2 ∧
      (w.setPlaybackRate "1.5x").m_player.calls =
        w.m_player.calls ++ [.setPlaybackRate (3 / 2)]) ∧
    ((w.setPlaybackRate "2.0x").m_player.playbackRate = 2 ∧
      (w.setPlaybackRate "2.0x").m_player.calls =
        w.m_player.calls ++ [.setPlaybackRate 2]) := by
  obtain ⟨⟨a1, a2⟩, ⟨b1, b2⟩, ⟨c1, c2⟩, ⟨d1, d2⟩, ⟨e1, e2⟩, ⟨f1, f2⟩⟩ := toDouble_rateLabels
  refine ⟨rfl, ?_, ?_, ?_, ?_, ?_, ?_⟩
  · rw [MediaPlayer.setPlaybackRate_player, a1, a2]; exact ⟨rfl, rfl⟩
  · rw [MediaPlayer.setPlaybackRate_player, b1, b2]; exact ⟨rfl, rfl⟩
  · rw [MediaPlayer.setPlaybackRate_player, c1, c2]; exact ⟨rfl, rfl⟩
  · rw [MediaPlayer.setPlaybackRate_player, d1, d2]; exact ⟨rfl, rfl⟩
  · rw [MediaPlayer.setPlaybackRate_player, e1, e2]; exact ⟨rfl, rfl⟩
  · rw [MediaPlayer.setPlaybackRate_player, f1, f2]; exact ⟨rfl, rfl⟩

/-! ## Opening files -/

/-- Adding files does not touch the engine. -/
theorem MediaPlayer.foldl_addToPlaylist_player (files : List String) :
    ∀ w : MediaPlayer,
      (files.foldl (fun acc file => MediaPlayer.addToPlaylist file acc) w).m_player =
        w.m_player := by
  induction files with
  | nil => intro w; rfl
  | cons f rest ih => intro w; rw [List.foldl_cons, ih]; rfl

/-- The playlist view and the engine after `openFile` with at least one file. -/
theorem MediaPlayer.openFile_cons (first : String) (rest : List String) (w : MediaPlayer) :
    (w.openFile (first :: rest)).m_playlistWidget =
      { items := w.m_playlistWidget.items ++
          (first :: rest).map (fun f => { text := fileName f, userData := f }),
        currentRow := w.m_playlistWidget.currentRow } ∧
    (w.openFile (first :: rest)).m_player =
      (w.m_player.setSource (QUrl.fromUserInput first)).play := by
  have hp := MediaPlayer.foldl_addToPlaylist_persisted (first :: rest) w
  simp only [persistedWidgets, Prod.mk.injEq] at hp
  constructor
  · show (MediaPlayer.playFile first _).m_playlistWidget = _
    rw [MediaPlayer.playFile_playlist, hp.1]
  · show (MediaPlayer.playFile first _).m_player = _
    rw [MediaPlayer.playFile_player, MediaPlayer.foldl_addToPlaylist_player]

/-- C13: `addToPlaylist` and `playFile` leave the cursor where it is; so after
`openFile` with the files `first :: rest` on an empty playlist without
selection the cursor is still `-1` while `first` is playing, and a following
`nextTrack`, or an `EndOfMedia` callback, selects row 0 and hands `first` to
the engine a second time. -/
theorem openFile_leaves_cursor_unset (w : MediaPlayer) (first : String) (rest : List String)
    (hitems : w.m_playlistWidget.items = [])
    (hrow : w.m_playlistWidget.currentRow = -1) :
    (∀ (f : String) (x : MediaPlayer),
      (x.addToPlaylist f).m_playlistWidget.currentRow = x.m_playlistWidget.currentRow ∧
      (x.playFile f).m_playlistWidget.currentRow = x.m_playlistWidget.currentRow) ∧
    (w.openFile (first :: rest)).m_playlistWidget.currentRow = -1 ∧
    (w.openFile (first :: rest)).recentFiles = first :: rest ∧
    (w.openFile (first :: rest)).m_player.source = some (QUrl.fromUserInput first) ∧
    (w.openFile (first :: rest)).m_player.calls =
      w.m_player.calls ++ [.setSource (QUrl.fromUserInput first), .play] ∧
    ∃ w1, (w.openFile (first :: rest)).nextTrack = some w1 ∧
      (w.openFile (first :: rest)).handleMediaStatus .EndOfMedia = some w1 ∧
      w1.m_playlistWidget.currentRow = 0 ∧
      w1.m_player.source = some (QUrl.fromUserInput first) ∧
      w1.m_player.calls = w.m_player.calls ++
        [.setSource (QUrl.fromUserInput first), .play,
         .setSource (QUrl.fromUserInput first), .play] := by
  obtain ⟨hpl, hpy⟩ := MediaPlayer.openFile_cons first rest w
  rw [hitems, hrow] at hpl
  have hr : (w.openFile (first :: rest)).m_playlistWidget.currentRow = -1 := by rw [hpl]
  have hi : (w.openFile (first :: rest)).m_playlistWidget.items =
      { text := fileName first, userData := first } ::
        rest.map (fun f => { text := fileName f, userData := f }) := by
    rw [hpl]; rfl
  obtain ⟨w1, h1, _, h1r, h1p⟩ := MediaPlayer.nextTrack_of_lt (w.openFile (first :: rest))
    { text := fileName first, userData := first }
    (by rw [hr])
    (by rw [hr]; simp only [QListWidget.count, hi, List.length_cons]; omega)
    (by rw [hr, hi]; rfl)
  refine ⟨fun f x => ⟨rfl, by rw [MediaPlayer.playFile_playlist]⟩, hr, ?_, ?_, ?_,
    w1, h1, h1, ?_, ?_, ?_⟩
  · simp [MediaPlayer.recentFiles, hi, Function.comp_def]
  · rw [hpy]; rfl
  · rw [hpy]; simp [QMediaPlayer.play, QMediaPlayer.setSource]
  · rw [h1r, hr]; rfl
  · rw [h1p]; rfl
  · rw [h1p, hpy]; simp [QMediaPlayer.play, QMediaPlayer.setSource]

/-- Witness for C13: two files opened on the new window. -/
theorem openFile_leaves_cursor_unset_witness :
    (MediaPlayer.freshWindow.openFile ["/m/a.mp4", "/m/b.mp4"]).m_playlistWidget.currentRow
      = -1 ∧
    ∃ w1, (MediaPlayer.freshWindow.openFile ["/m/a.mp4", "/m/b.mp4"]).nextTrack = some w1 ∧
      (MediaPlayer.freshWindow.openFile ["/m/a.mp4", "/m/b.mp4"]).handleMediaStatus
        .EndOfMedia = some w1 ∧
      w1.m_playlistWidget.currentRow = 0 ∧
      w1.m_player.source = some (QUrl.fromUserInput "/m/a.mp4") ∧
      w1.m_player.calls = MediaPlayer.freshWindow.m_player.calls ++
        [.setSource (QUrl.fromUserInput "/m/a.mp4"), .play,
         .setSource (QUrl.fromUserInput "/m/a.mp4"), .play] :=
  ⟨(openFile_leaves_cursor_unset MediaPlayer.freshWindow "/m/a.mp4" ["/m/b.mp4"]
      rfl rfl).2.1,
   (openFile_leaves_cursor_unset MediaPlayer.freshWindow "/m/a.mp4" ["/m/b.mp4"]
      rfl rfl).2.2.2.2.2⟩

/-! ## The time label beyond 24 hours -/

/-- The rendering of `QTime(0,0,0).addMSecs(ms)` in general: the hours are
taken modulo 24. -/
theorem QTime.toString_addMSecs_wrap (ms : Int) :
    ((QTime.ofHMS 0 0 0).addMSecs ms).toString =
      pad2 (ms / 3600000 % 24).toNat ++ ":" ++ pad2 (ms / 60000 % 60).toNat ++ ":" ++
        pad2 (ms / 1000 % 60).toNat := by
  have eh : (0 + ms) % 86400000 / 3600000 = ms / 3600000 % 24 := by omega
  have em : (0 + ms) % 86400000 % 3600000 / 60000 = ms / 60000 % 60 := by omega
  have es : (0 + ms) % 86400000 / 1000 % 60 = ms / 1000 % 60 := by omega
  have e0 : ((0 : Int) * 3600 + 0 * 60 + 0) * 1000 = 0 := by norm_num
  simp only [QTime.toString, QTime.hour, QTime.minute, QTime.second, QTime.addMSecs,
    QTime.ofHMS, MSECS_PER_DAY, MSECS_PER_HOUR, MSECS_PER_MIN, e0, eh, em, es]

/-- Adding a time and adding its remainder modulo one day give the same clock
time. -/
theorem QTime.addMSecs_mod_day (ms : Int) (t : QTime) :
    t.addMSecs (ms % 86400000) = t.addMSecs ms := by
  simp only [QTime.addMSecs, MSECS_PER_DAY]
  congr 1
  omega

/-- C14: for a position `p` with `86400000 ≤ p < 2^31` (and an engine duration
`d` with `0 ≤ d < 2^31`), `updatePosition(p)` sets the same label as for
`p mod 86400000`, and the same label as with the duration `d mod 86400000`;
both sides show the hours modulo 24, which never exceed 23. -/
theorem updatePosition_wraps_at_24h (p : Int) (w : MediaPlayer)
    (hp0 : 86400000 ≤ p) (hp1 : p < 2 ^ 31)
    (hd0 : 0 ≤ w.m_player.duration) (hd1 : w.m_player.duration < 2 ^ 31) :
    (w.updatePosition p).m_timeLabel = (w.updatePosition (p % 86400000)).m_timeLabel ∧
    (w.updatePosition p).m_timeLabel =
      (MediaPlayer.updatePosition p
        { w with m_player :=
            { w.m_player with duration := w.m_player.duration % 86400000 } }).m_timeLabel ∧
    (w.updatePosition p).m_timeLabel =
      (pad2 (p / 3600000 % 24).toNat ++ ":" ++ pad2 (p / 60000 % 60).toNat ++ ":" ++
        pad2 (p / 1000 % 60).toNat) ++ " / " ++
      (pad2 (w.m_player.duration / 3600000 % 24).toNat ++ ":" ++
        pad2 (w.m_player.duration / 60000 % 60).toNat ++ ":" ++
        pad2 (w.m_player.duration / 1000 % 60).toNat) ∧
    p / 3600000 % 24 ≤ 23 ∧ w.m_player.duration / 3600000 % 24 ≤ 23 := by
  have hp1n : p < 2147483648 := by norm_num at hp1; exact hp1
  have hd1n : w.m_player.duration < 2147483648 := by norm_num at hd1; exact hd1
  have ep : toInt32 p = p := toInt32_of_small p (by omega) hp1
  have epm : toInt32 (p % 86400000) = p % 86400000 :=
    toInt32_of_small _ (by omega) (by norm_num; omega)
  have ed : toInt32 w.m_player.duration = w.m_player.duration :=
    toInt32_of_small _ hd0 hd1
  have edm : toInt32 (w.m_player.duration % 86400000) = w.m_player.duration % 86400000 :=
    toInt32_of_small _ (by omega) (by norm_num; omega)
  refine ⟨?_, ?_, ?_, by omega, by omega⟩
  · simp only [MediaPlayer.updatePosition, ep, epm, QTime.addMSecs_mod_day]
  · simp only [MediaPlayer.updatePosition, ed, edm, QTime.addMSecs_mod_day]
  · simp only [MediaPlayer.updatePosition, ep, ed]
    rw [QTime.toString_addMSecs_wrap p, QTime.toString_addMSecs_wrap w.m_player.duration]

/-- Witness for C14: position 90000000 ms (25 hours) with a duration of
100000000 ms (27 h 46 min 40 s). -/
theorem updatePosition_wraps_at_24h_witness :
    (MediaPlayer.updatePosition 90000000
      { MediaPlayer.freshWindow with
        m_player := { MediaPlayer.freshWindow.m_player with duration := 100000000 } }).m_timeLabel
      = "01:00:00 / 03:46:40" :=
  (updatePosition_wraps_at_24h 90000000
    { MediaPlayer.freshWindow with
      m_player := { MediaPlayer.freshWindow.m_player with duration := 100000000 } }
    (by decide) (by decide) (by decide) (by decide)).2.2.1.trans (by decide)

end ModernMediaPlayer
